import Mathlib

/-!
Verification development for the HD44780 LCD driver (`wiringPi/hd44780.c`).

The driver is embedded shallowly: the wiringPi GPIO primitives
(`digitalWrite`, `digitalRead`, `pinMode`, `pullUpDnControl`, the delay and
clock primitives) are interpreted over an explicit simulation state `Sim`
that records an event trace, keeps pin levels and directions, models a
monotonic clock, and simulates an attached HD44780-style bus device that
latches driven nibbles on enable falling edges and presents latched bytes
during read cycles.  The driver functions themselves are translated
line-by-line from the C source; unbounded C `while` loops (busy-flag
polling, interruption-tolerant sleeping) take an explicit fuel argument and
return `Option` (`none` models non-termination within the given fuel).
-/

namespace HD44780

/-- POSIX `struct timespec` (seconds, nanoseconds). -/
structure Timespec where
  tv_sec : Int
  tv_nsec : Int
deriving DecidableEq, Repr

/-- `timespec_add` from hd44780.c (sum with nanosecond carry). -/
def timespec_add (lhs rhs : Timespec) : Timespec :=
  { tv_sec := lhs.tv_sec + rhs.tv_sec + (lhs.tv_nsec + rhs.tv_nsec) / 1000000000
    tv_nsec := (lhs.tv_nsec + rhs.tv_nsec) % 1000000000 }

/-- `timespec_gt` from hd44780.c (lexicographic strict comparison). -/
def timespec_gt (lhs rhs : Timespec) : Bool :=
  if lhs.tv_sec = rhs.tv_sec then decide (lhs.tv_nsec > rhs.tv_nsec)
  else decide (lhs.tv_sec > rhs.tv_sec)

/-- A nanosecond count as a `Timespec` (used by the simulated clock). -/
def nsToTimespec (t : Int) : Timespec :=
  ⟨t / 1000000000, t % 1000000000⟩

/-- Total nanoseconds denoted by a `Timespec`. -/
def timespecToNs (ts : Timespec) : Int :=
  ts.tv_sec * 1000000000 + ts.tv_nsec

/-- `enable_duration` constant: 300 ns strobe pulse width. -/
def enable_duration : Int := 300

/-- `standard_busy_delay` constant: 37 us. -/
def standard_busy_delay : Timespec := ⟨0, 37000⟩

/-- `extended_busy_delay` constant: 41 us. -/
def extended_busy_delay : Timespec := ⟨0, 41000⟩

/-- `reset_busy_delay` constant: 1.52 ms. -/
def reset_busy_delay : Timespec := ⟨0, 1520000⟩

/-- GPIO pin direction (wiringPi INPUT / OUTPUT). -/
inductive PinDir where
  | input
  | output
deriving DecidableEq, Repr

/-- Events recorded by the simulated environment, newest first. -/
inductive Ev where
  | write (pin : Int) (val : Bool)
  | readEv (pin : Int) (val : Bool)
  | modeSet (pin : Int) (d : PinDir)
  | pull (pin : Int) (pud : Int)
  | delayNs (n : Int)
  | delayUs (n : Int)
  | sleepAbs (deadline : Timespec) (ret : Int)
  | gettime (t : Timespec)
  | err (name : String) (pin : Int)
  | msg (text : String)
  | newNode (pinBase : Int)
deriving DecidableEq, Repr

/-- Fixed wiring of the simulated bus device: register-select pin. -/
def simPinRS : Int := 10
/-- Fixed wiring: read/write-control pin. -/
def simPinRW : Int := 11
/-- Fixed wiring: enable/strobe pin. -/
def simPinE : Int := 6
/-- Fixed wiring: data line 0. -/
def simPinDB0 : Int := 19
/-- Fixed wiring: data line 1. -/
def simPinDB1 : Int := 20
/-- Fixed wiring: data line 2. -/
def simPinDB2 : Int := 21
/-- Fixed wiring: data line 3. -/
def simPinDB3 : Int := 22
/-- Fixed wiring: data line 4. -/
def simPinDB4 : Int := 23
/-- Fixed wiring: data line 5. -/
def simPinDB5 : Int := 24
/-- Fixed wiring: data line 6. -/
def simPinDB6 : Int := 25
/-- Fixed wiring: data line 7. -/
def simPinDB7 : Int := 26

/-- Simulation state: host pin state, the simulated device, a monotonic
clock with a stream of spurious-wake decisions, the pseudo-pin registry and
allocation behaviour, and the recorded event trace (newest first). -/
structure Sim where
  level : Int → Bool
  dir : Int → PinDir
  pud : Int → Int
  /-- Device: byte latched for the instruction target (RS low). -/
  mem0 : Nat
  /-- Device: byte latched for the memory target (RS high). -/
  mem1 : Nat
  /-- Device: high nibble latched during the first write half of a pair. -/
  latchHigh : Nat
  /-- Device: nibble phase; `false` means the next cycle carries a high nibble. -/
  wphase : Bool
  /-- Device: number of remaining busy polls that observe the busy flag high. -/
  busyReads : Nat
  /-- Monotonic clock, nanoseconds. -/
  time : Int
  /-- For each upcoming absolute sleep: `true` = woken spuriously before the deadline. -/
  wakes : List Bool
  /-- Registry of pseudo-pins known to `wiringPiFindNode`. -/
  registered : Int → Bool
  /-- Whether `wiringPiNewNode` succeeds. -/
  newNodeOk : Bool
  /-- Whether `malloc` for the node data succeeds. -/
  mallocOk : Bool
  trace : List Ev

/-- Nibble currently driven by the host on data lines 4-7 (DB7 = msb). -/
def deviceLatchNibble (s : Sim) : Nat :=
  (cond (s.level simPinDB7) 8 0) + (cond (s.level simPinDB6) 4 0) +
    (cond (s.level simPinDB5) 2 0) + (cond (s.level simPinDB4) 1 0)

/-- Device reaction to a falling enable edge: during a read cycle the nibble
phase advances; during a write cycle the driven nibble is latched, and a
completed nibble pair is stored at the target selected by RS. -/
def deviceOnEFall (s : Sim) : Sim :=
  if s.level simPinRW then { s with wphase := !s.wphase }
  else if s.wphase = false then
    { s with latchHigh := deviceLatchNibble s, wphase := true }
  else
    let b := s.latchHigh * 16 + deviceLatchNibble s
    if s.level simPinRS then { s with mem1 := b, wphase := false }
    else { s with mem0 := b, wphase := false }

/-- Byte the device presents during a read cycle: the memory latch when RS
is high, otherwise the busy-flag/address-counter byte (busy on line 7). -/
def devicePresentedByte (s : Sim) : Nat :=
  if s.level simPinRS then s.mem1
  else if s.busyReads ≠ 0 then 128 else 0

/-- Nibble the device drives on data lines 4-7 in the current phase. -/
def devicePresentedNibble (s : Sim) : Nat :=
  if s.wphase then devicePresentedByte s % 16 else devicePresentedByte s / 16

/-- Whether the device is driving data line `pin` (read cycle, enable high). -/
def deviceDrives (s : Sim) (pin : Int) : Bool :=
  decide ((pin = simPinDB4 ∨ pin = simPinDB5 ∨ pin = simPinDB6 ∨ pin = simPinDB7) ∧
    s.level simPinRW = true ∧ s.level simPinE = true)

/-- Bit index on the presented nibble carried by data line `pin`. -/
def dbBitIndex (pin : Int) : Nat :=
  if pin = simPinDB7 then 3 else if pin = simPinDB6 then 2
  else if pin = simPinDB5 then 1 else 0

/-- wiringPi `digitalWrite` over the simulation: records the event, updates
the driven level, and lets the device react to enable falling edges. -/
def digitalWrite (pin : Int) (val : Bool) (s : Sim) : Sim :=
  let old := s.level pin
  let s1 : Sim :=
    { s with
      level := fun p => if p = pin then val else s.level p
      trace := Ev.write pin val :: s.trace }
  if pin = simPinE ∧ old = true ∧ val = false then deviceOnEFall s1 else s1

/-- wiringPi `digitalRead` over the simulation: an output pin reads back its
host-driven level; an input data line reads the device-driven bit when the
device is presenting; the busy countdown decreases at each observation of
the busy line. -/
def digitalRead (pin : Int) (s : Sim) : Bool × Sim :=
  let v : Bool :=
    if s.dir pin = PinDir.output then s.level pin
    else if deviceDrives s pin then (devicePresentedNibble s).testBit (dbBitIndex pin)
    else s.level pin
  let s1 : Sim := { s with trace := Ev.readEv pin v :: s.trace }
  let s2 : Sim :=
    if pin = simPinDB7 ∧ s.dir pin = PinDir.input ∧ deviceDrives s pin = true ∧
        s.level simPinRS = false then
      { s1 with busyReads := s1.busyReads - 1 }
    else s1
  (v, s2)

/-- wiringPi `pinMode` over the simulation. -/
def pinMode (pin : Int) (d : PinDir) (s : Sim) : Sim :=
  { s with dir := fun p => if p = pin then d else s.dir p
           trace := Ev.modeSet pin d :: s.trace }

/-- wiringPi `pullUpDnControl` over the simulation. -/
def pullUpDnControl (pin : Int) (pud : Int) (s : Sim) : Sim :=
  { s with pud := fun p => if p = pin then pud else s.pud p
           trace := Ev.pull pin pud :: s.trace }

/-- wiringPi `delayNanoseconds` over the simulation (advances the clock). -/
def delayNanoseconds (n : Int) (s : Sim) : Sim :=
  { s with time := s.time + n, trace := Ev.delayNs n :: s.trace }

/-- wiringPi `delayMicroseconds` over the simulation (advances the clock). -/
def delayMicroseconds (n : Int) (s : Sim) : Sim :=
  { s with time := s.time + n * 1000, trace := Ev.delayUs n :: s.trace }

/-- `clock_gettime(CLOCK_MONOTONIC_RAW)` over the simulation. -/
def clock_gettime (s : Sim) : Timespec × Sim :=
  let t := nsToTimespec s.time
  (t, { s with trace := Ev.gettime t :: s.trace })

/-- `clock_nanosleep(CLOCK_MONOTONIC_RAW, TIMER_ABSTIME, deadline)` over the
simulation.  The head of `wakes` decides whether this sleep is interrupted
spuriously before the deadline (nonzero result, clock not advanced to the
deadline) or completes (zero result, clock advanced to the deadline). -/
def clock_nanosleep_abs (deadline : Timespec) (s : Sim) : Int × Sim :=
  let d := timespecToNs deadline
  match s.wakes with
  | true :: rest =>
      (4, { s with wakes := rest, trace := Ev.sleepAbs deadline 4 :: s.trace })
  | false :: rest =>
      (0, { s with wakes := rest, time := max s.time d,
                   trace := Ev.sleepAbs deadline 0 :: s.trace })
  | [] =>
      (0, { s with time := max s.time d,
                   trace := Ev.sleepAbs deadline 0 :: s.trace })

/-- `struct hd44780DataStruct` from hd44780.c.  The C `int pinDB[8]` array
is embedded as a function from the index 0-7. -/
structure hd44780DataStruct where
  readEnabled : Bool
  mode8Enabled : Bool
  mode8 : Bool
  pinRS : Int
  pinRW : Int
  pinE : Int
  pinDB : Nat → Int
  operation_end : Timespec

/-- Builds the `pinDB` array in the order used by `hd44780Setup`. -/
def mkPinDB (db0 db1 db2 db3 db4 db5 db6 db7 : Int) : Nat → Int :=
  fun i =>
    match i with
    | 0 => db0
    | 1 => db1
    | 2 => db2
    | 3 => db3
    | 4 => db4
    | 5 => db5
    | 6 => db6
    | 7 => db7
    | _ => 0

/-- Installed write-handler variants (`node->digitalWrite` targets). -/
inductive WriteHandler where
  | w8
  | w4
deriving DecidableEq, Repr

/-- Installed read-handler variants (`node->digitalRead` targets). -/
inductive ReadHandler where
  | r8
  | r4
deriving DecidableEq, Repr

/-- The parts of `struct wiringPiNodeStruct` used by this driver. -/
structure wiringPiNodeStruct where
  pinBase : Int
  dataStruct : hd44780DataStruct
  dwrite : Option WriteHandler
  dread : Option ReadHandler

/-- `setStatusPins` from hd44780.c. -/
def setStatusPins (nodeData : hd44780DataStruct) (RS RW : Bool) (s : Sim) : Sim :=
  let s := digitalWrite nodeData.pinRS RS s
  let s := if nodeData.readEnabled then digitalWrite nodeData.pinRW RW s else s
  delayNanoseconds 50 s

/-- `writeCycleStart` from hd44780.c. -/
def writeCycleStart (pinE : Int) (s : Sim) : Sim :=
  digitalWrite pinE true s

/-- `writeCycleEnd` from hd44780.c. -/
def writeCycleEnd (pinE : Int) (s : Sim) : Sim :=
  let s := delayNanoseconds enable_duration s
  let s := digitalWrite pinE false s
  delayNanoseconds enable_duration s

/-- `readCycleStart` from hd44780.c. -/
def readCycleStart (pinE : Int) (s : Sim) : Sim :=
  let s := digitalWrite pinE true s
  delayNanoseconds enable_duration s

/-- `readCycleEnd` from hd44780.c. -/
def readCycleEnd (pinE : Int) (s : Sim) : Sim :=
  let s := digitalWrite pinE false s
  delayNanoseconds enable_duration s

/-- The spin of `waitWhileBusy_ReadDisabled`: keep issuing the absolute
sleep while it reports interruption (nonzero result). -/
def sleepLoop (deadline : Timespec) : Nat → Sim → Option Sim
  | 0, _ => none
  | fuel + 1, s =>
      let r := clock_nanosleep_abs deadline s
      if r.1 = 0 then some r.2 else sleepLoop deadline fuel r.2

/-- `waitWhileBusy_ReadDisabled` from hd44780.c. -/
def waitWhileBusy_ReadDisabled (nodeData : hd44780DataStruct) (fuel : Nat) (s : Sim) :
    Option Sim :=
  let g := clock_gettime s
  let tsNow := g.1
  let s := g.2
  if timespec_gt nodeData.operation_end tsNow then
    sleepLoop nodeData.operation_end fuel s
  else
    some s

/-- The busy-poll loop of `waitWhileBusy_8`: strobe and sample line 7 until
it reads low. -/
def busyPoll_8 (nodeData : hd44780DataStruct) : Nat → Sim → Option Sim
  | 0, _ => none
  | fuel + 1, s =>
      let r := digitalRead (nodeData.pinDB 7) s
      if r.1 then
        let s := readCycleEnd nodeData.pinE r.2
        let s := readCycleStart nodeData.pinE s
        busyPoll_8 nodeData fuel s
      else
        some r.2

/-- The condition guarding the blind-sleep in the read-capable waits:
expected operation end is more than 100 us away. -/
def farFromDeadline (opEnd now : Timespec) : Bool :=
  decide ((opEnd.tv_sec - now.tv_sec) * 1000000000 + (opEnd.tv_nsec - now.tv_nsec) > 100000)

/-- `waitWhileBusy_8` from hd44780.c. -/
def waitWhileBusy_8 (nodeData : hd44780DataStruct) (fuel : Nat) (s : Sim) : Option Sim :=
  if nodeData.readEnabled then
    let g := clock_gettime s
    let s :=
      if farFromDeadline nodeData.operation_end g.1 then
        (clock_nanosleep_abs nodeData.operation_end g.2).2
      else g.2
    let s := pinMode (nodeData.pinDB 7) PinDir.input s
    let s := setStatusPins nodeData false true s
    let s := readCycleStart nodeData.pinE s
    match busyPoll_8 nodeData fuel s with
    | none => none
    | some s =>
        let s := pinMode (nodeData.pinDB 7) PinDir.output s
        some (readCycleEnd nodeData.pinE s)
  else
    waitWhileBusy_ReadDisabled nodeData fuel s

/-- The busy-poll loop of `waitWhileBusy_4`: each iteration finishes the
poll cycle, runs a full dummy cycle discarding the second nibble, and
starts the next poll cycle. -/
def busyPoll_4 (nodeData : hd44780DataStruct) : Nat → Sim → Option Sim
  | 0, _ => none
  | fuel + 1, s =>
      let r := digitalRead (nodeData.pinDB 7) s
      if r.1 then
        let s := readCycleEnd nodeData.pinE r.2
        let s := readCycleStart nodeData.pinE s
        let s := readCycleEnd nodeData.pinE s
        let s := readCycleStart nodeData.pinE s
        busyPoll_4 nodeData fuel s
      else
        some r.2

/-- `waitWhileBusy_4` from hd44780.c. -/
def waitWhileBusy_4 (nodeData : hd44780DataStruct) (fuel : Nat) (s : Sim) : Option Sim :=
  if nodeData.readEnabled then
    let g := clock_gettime s
    let s :=
      if farFromDeadline nodeData.operation_end g.1 then
        (clock_nanosleep_abs nodeData.operation_end g.2).2
      else g.2
    let s := pinMode (nodeData.pinDB 7) PinDir.input s
    let s := setStatusPins nodeData false true s
    let s := readCycleStart nodeData.pinE s
    match busyPoll_4 nodeData fuel s with
    | none => none
    | some s =>
        let s := pinMode (nodeData.pinDB 7) PinDir.output s
        let s := readCycleEnd nodeData.pinE s
        let s := readCycleStart nodeData.pinE s
        some (readCycleEnd nodeData.pinE s)
  else
    waitWhileBusy_ReadDisabled nodeData fuel s

/-- The recovery-delay selection shared by both write handlers (lines
272-281 and 318-327 of hd44780.c): extended for memory writes, standard
for control instructions above 0x03, reset delay otherwise. -/
def selectDelay (RS : Bool) (data8 : Nat) : Timespec :=
  if RS then extended_busy_delay
  else if data8 &&& 0xFF > 0x03 then standard_busy_delay
  else reset_busy_delay

/-- `hd44780DigitalWrite_4` from hd44780.c.  Returns the updated node data
(`operation_end` advanced) together with the simulation state. -/
def hd44780DigitalWrite_4 (node : wiringPiNodeStruct) (pin dataArg : Int) (fuel : Nat)
    (s : Sim) : Option (hd44780DataStruct × Sim) :=
  let nodeData := node.dataStruct
  let data8 : Nat := (dataArg % 256).toNat
  let RS : Bool := decide (pin = node.pinBase)
  match waitWhileBusy_4 nodeData fuel s with
  | none => none
  | some s =>
      let s := setStatusPins nodeData RS false s
      let s := writeCycleStart nodeData.pinE s
      let s := (List.range' 4 4).foldl
        (fun s i => digitalWrite (nodeData.pinDB i) (decide ((data8 >>> i) &&& 1 = 1)) s) s
      let s := writeCycleEnd nodeData.pinE s
      let s := writeCycleStart nodeData.pinE s
      let s := (List.range' 4 4).foldl
        (fun s i => digitalWrite (nodeData.pinDB i) (decide ((data8 >>> (i - 4)) &&& 1 = 1)) s) s
      let s := writeCycleEnd nodeData.pinE s
      let g := clock_gettime s
      some ({ nodeData with operation_end := timespec_add g.1 (selectDelay RS data8) }, g.2)

/-- `hd44780DigitalWrite_8` from hd44780.c, including the mode-negotiation
checks on outgoing instruction bytes. -/
def hd44780DigitalWrite_8 (node : wiringPiNodeStruct) (pin dataArg : Int) (fuel : Nat)
    (s : Sim) : Option (hd44780DataStruct × Sim) :=
  let nodeData := node.dataStruct
  let data8 : Nat := (dataArg % 256).toNat
  let RS : Bool := decide (pin = node.pinBase)
  if nodeData.mode8 = false then
    let nodeData :=
      if RS = false ∧ data8 &&& 0xF0 = 0x30 then { nodeData with mode8 := true }
      else nodeData
    hd44780DigitalWrite_4 { node with dataStruct := nodeData } pin (data8 : Int) fuel s
  else
    let nodeData :=
      if RS = false ∧ data8 &&& 0xF0 = 0x20 then { nodeData with mode8 := false }
      else nodeData
    match waitWhileBusy_8 nodeData fuel s with
    | none => none
    | some s =>
        let s := setStatusPins nodeData RS false s
        let s := writeCycleStart nodeData.pinE s
        let s := (List.range 8).foldl
          (fun s i => digitalWrite (nodeData.pinDB i) (decide ((data8 >>> i) &&& 1 = 1)) s) s
        let s := writeCycleEnd nodeData.pinE s
        let g := clock_gettime s
        some ({ nodeData with operation_end := timespec_add g.1 (selectDelay RS data8) }, g.2)

/-- One sampling pass of a read handler: shift in the listed data lines,
most significant first. -/
def sampleLines (nodeData : hd44780DataStruct) (lines : List Nat) (acc : Nat) (s : Sim) :
    Nat × Sim :=
  lines.foldl
    (fun p i =>
      let r := digitalRead (nodeData.pinDB i) p.2
      (p.1 * 2 + cond r.1 1 0, r.2))
    (acc, s)

/-- `hd44780DigitalRead_4` from hd44780.c. -/
def hd44780DigitalRead_4 (node : wiringPiNodeStruct) (pin : Int) (fuel : Nat) (s : Sim) :
    Option (Nat × Sim) :=
  let nodeData := node.dataStruct
  let s := (List.range' 4 4).foldl (fun s i => pinMode (nodeData.pinDB i) PinDir.input s) s
  let waited : Option Sim :=
    if pin = node.pinBase then
      match waitWhileBusy_4 nodeData fuel s with
      | none => none
      | some s => some (setStatusPins nodeData true true s)
    else
      some (setStatusPins nodeData false true s)
  match waited with
  | none => none
  | some s =>
      let s := readCycleStart nodeData.pinE s
      let p := sampleLines nodeData [7, 6, 5, 4] 0 s
      let s := readCycleEnd nodeData.pinE p.2
      let s := readCycleStart nodeData.pinE s
      let p2 := sampleLines nodeData [7, 6, 5, 4] p.1 s
      let s := readCycleEnd nodeData.pinE p2.2
      let s := (List.range' 4 4).foldl (fun s i => pinMode (nodeData.pinDB i) PinDir.output s) s
      some (p2.1, s)

/-- `hd44780DigitalRead_8` from hd44780.c. -/
def hd44780DigitalRead_8 (node : wiringPiNodeStruct) (pin : Int) (fuel : Nat) (s : Sim) :
    Option (Nat × Sim) :=
  let nodeData := node.dataStruct
  if nodeData.mode8 = false then
    hd44780DigitalRead_4 node pin fuel s
  else
    let waited : Option Sim :=
      if pin = node.pinBase then
        match waitWhileBusy_8 nodeData fuel s with
        | none => none
        | some s => some (setStatusPins nodeData true true s)
      else
        some (setStatusPins nodeData false true s)
    match waited with
    | none => none
    | some s =>
        let s := (List.range 8).foldl (fun s i => pinMode (nodeData.pinDB i) PinDir.input s) s
        let s := readCycleStart nodeData.pinE s
        let p := sampleLines nodeData [7, 6, 5, 4, 3, 2, 1, 0] 0 s
        let s := readCycleEnd nodeData.pinE p.2
        let s := (List.range 8).foldl (fun s i => pinMode (nodeData.pinDB i) PinDir.output s) s
        some (p.1, s)

/-- `setupPin` from hd44780.c: pull-up, output direction, driven low. -/
def setupPin (pin : Int) (s : Sim) : Sim :=
  let s := pullUpDnControl pin 2 s
  let s := pinMode pin PinDir.output s
  digitalWrite pin false s

/-- The `CHECK_PIN` macro of `hd44780Setup`: an id is rejected when it is
negative, or at least 64 without a registered pseudo-pin node; a rejection
is reported and sets the failure flag. -/
def checkPin (name : String) (id : Int) : Bool × Sim → Bool × Sim :=
  fun fs =>
    if id < 0 ∨ (id ≥ 64 ∧ ¬ fs.2.registered id = true) then
      (true, { fs.2 with trace := Ev.err name id :: fs.2.trace })
    else fs

/-- Result of `hd44780Setup`: success with the installed node, clean
failure (`EXIT_FAILURE`), or the undefined behaviour of dereferencing the
null node pointer when `wiringPiNewNode` fails. -/
inductive SetupResult where
  | ok (node : wiringPiNodeStruct)
  | fail
  | crash

/-- `hd44780Setup` from hd44780.c. -/
def hd44780Setup (pinBase : Int) (readEnabled mode8Enabled : Bool)
    (pinRS pinRW pinE pinDB7 pinDB6 pinDB5 pinDB4 pinDB3 pinDB2 pinDB1 pinDB0 : Int)
    (s : Sim) : SetupResult × Sim :=
  let fs := (false, s)
  let fs := checkPin "pinRS" pinRS fs
  let fs := if readEnabled then checkPin "pinRW" pinRW fs else fs
  let fs := checkPin "pinE" pinE fs
  let fs := checkPin "pinDB7" pinDB7 fs
  let fs := checkPin "pinDB6" pinDB6 fs
  let fs := checkPin "pinDB5" pinDB5 fs
  let fs := checkPin "pinDB4" pinDB4 fs
  let fs :=
    if mode8Enabled then
      checkPin "pinDB0" pinDB0 (checkPin "pinDB1" pinDB1
        (checkPin "pinDB2" pinDB2 (checkPin "pinDB3" pinDB3 fs)))
    else fs
  if fs.1 then
    (SetupResult.fail, { fs.2 with trace := Ev.msg "hd44780Setup() failed." :: fs.2.trace })
  else
    let s := fs.2
    if s.newNodeOk = false then
      -- the C code prints the error but is missing a return here and goes on
      -- to dereference the null node pointer
      (SetupResult.crash,
        { s with trace := Ev.msg "Error: unable to allocate WiringPi node." :: s.trace })
    else
      let s := { s with trace := Ev.newNode pinBase :: s.trace }
      if s.mallocOk = false then
        (SetupResult.fail,
          { s with trace := Ev.msg "Error: unable to allocate node data structure." :: s.trace })
      else
        let tmpStruct : hd44780DataStruct :=
          { readEnabled := readEnabled, mode8Enabled := mode8Enabled, mode8 := mode8Enabled
            pinRS := pinRS, pinRW := pinRW, pinE := pinE
            pinDB := mkPinDB pinDB0 pinDB1 pinDB2 pinDB3 pinDB4 pinDB5 pinDB6 pinDB7
            operation_end := ⟨0, 0⟩ }
        let s := setupPin pinRS s
        let s := if readEnabled then setupPin pinRW s else s
        let s := setupPin pinE s
        let s := setupPin pinDB7 s
        let s := setupPin pinDB6 s
        let s := setupPin pinDB5 s
        let s := setupPin pinDB4 s
        if mode8Enabled then
          let s := setupPin pinDB3 s
          let s := setupPin pinDB2 s
          let s := setupPin pinDB1 s
          let s := setupPin pinDB0 s
          let node : wiringPiNodeStruct :=
            { pinBase := pinBase, dataStruct := tmpStruct
              dwrite := some WriteHandler.w8
              dread := if readEnabled then some ReadHandler.r8 else none }
          (SetupResult.ok node, s)
        else
          let s := writeCycleStart pinE s
          let s := digitalWrite pinDB5 true s
          let s := writeCycleEnd pinE s
          let s := digitalWrite pinDB5 false s
          let s := delayMicroseconds 37 s
          let node : wiringPiNodeStruct :=
            { pinBase := pinBase, dataStruct := tmpStruct
              dwrite := some WriteHandler.w4
              dread := if readEnabled then some ReadHandler.r4 else none }
          (SetupResult.ok node, s)

/-- Dispatch of a write through the node's installed write handler. -/
def nodeDigitalWrite (node : wiringPiNodeStruct) (pin dataArg : Int) (fuel : Nat) (s : Sim) :
    Option (wiringPiNodeStruct × Sim) :=
  match node.dwrite with
  | some WriteHandler.w8 =>
      (hd44780DigitalWrite_8 node pin dataArg fuel s).map
        (fun r => ({ node with dataStruct := r.1 }, r.2))
  | some WriteHandler.w4 =>
      (hd44780DigitalWrite_4 node pin dataArg fuel s).map
        (fun r => ({ node with dataStruct := r.1 }, r.2))
  | none => none

/-- Dispatch of a read through the node's installed read handler. -/
def nodeDigitalRead (node : wiringPiNodeStruct) (pin : Int) (fuel : Nat) (s : Sim) :
    Option (Nat × Sim) :=
  match node.dread with
  | some ReadHandler.r8 => hd44780DigitalRead_8 node pin fuel s
  | some ReadHandler.r4 => hd44780DigitalRead_4 node pin fuel s
  | none => none

/-!  Concrete fixtures: a quiescent simulation state wired to the fixed
simulated device pins, and node records as `hd44780Setup` would build them. -/

/-- Quiescent initial simulation state: all lines low and output, device
idle and not busy, clock at zero, allocation succeeding. -/
def simInit : Sim :=
  { level := fun _ => false, dir := fun _ => PinDir.output, pud := fun _ => 0
    mem0 := 0, mem1 := 0, latchHigh := 0, wphase := false, busyReads := 0
    time := 0, wakes := [], registered := fun _ => false
    newNodeOk := true, mallocOk := true, trace := [] }

/-- The `pinDB` array wired to the simulated device's data lines. -/
def simPinDBArr : Nat → Int :=
  mkPinDB simPinDB0 simPinDB1 simPinDB2 simPinDB3 simPinDB4 simPinDB5 simPinDB6 simPinDB7

/-- Node data for a read-capable 4-bit node on the simulated wiring, as
`hd44780Setup 64 true false …` initialises it. -/
def nd4R : hd44780DataStruct :=
  { readEnabled := true, mode8Enabled := false, mode8 := false
    pinRS := simPinRS, pinRW := simPinRW, pinE := simPinE
    pinDB := simPinDBArr, operation_end := ⟨0, 0⟩ }

/-- Read-capable 4-bit node record at pin base 64. -/
def node4R : wiringPiNodeStruct :=
  { pinBase := 64, dataStruct := nd4R
    dwrite := some WriteHandler.w4, dread := some ReadHandler.r4 }

/-- Node data for a read-disabled 8-bit-capable node in active-width state
`m8`, on the simulated wiring. -/
def nd8W (m8 : Bool) : hd44780DataStruct :=
  { readEnabled := false, mode8Enabled := true, mode8 := m8
    pinRS := simPinRS, pinRW := simPinRW, pinE := simPinE
    pinDB := simPinDBArr, operation_end := ⟨0, 0⟩ }

/-- Read-disabled 8-bit-capable node record at pin base 64. -/
def node8W (m8 : Bool) : wiringPiNodeStruct :=
  { pinBase := 64, dataStruct := nd8W m8
    dwrite := some WriteHandler.w8, dread := none }

/-!  Observables over recorded traces. -/

/-- Whether an event drives, reconfigures, or pulls pin `p`. -/
def evTouches (p : Int) (e : Ev) : Bool :=
  match e with
  | Ev.write q _ => q == p
  | Ev.modeSet q _ => q == p
  | Ev.pull q _ => q == p
  | _ => false

/-- The events a run appended on top of an earlier trace (newest first). -/
def newOf (after before : Sim) : List Ev :=
  after.trace.take (after.trace.length - before.trace.length)

/-- Whether an event is an absolute-sleep call. -/
def isSleepEv : Ev → Bool
  | Ev.sleepAbs _ _ => true
  | _ => false

/-- The run from `old` to `new` added only events that do not touch pin
`p` (no write, no direction change, no pull on `p`). -/
def Untouched (p : Int) (old new : Sim) : Prop :=
  ∃ l, new.trace = l ++ old.trace ∧ ∀ e ∈ l, evTouches p e = false

/-- `Untouched` lifted over an optional run result carrying a state. -/
def UntouchedOpt (p : Int) (old : Sim) : Option Sim → Prop
  | none => True
  | some new => Untouched p old new

/-- The rejection condition of the `CHECK_PIN` macro. -/
def pinBad (s : Sim) (id : Int) : Bool :=
  decide (id < 0 ∨ (id ≥ 64 ∧ ¬ s.registered id = true))

/-- Some pin referenced by the given `hd44780Setup` configuration is
rejected by `CHECK_PIN`. -/
def referencedBad (s : Sim) (readEnabled mode8Enabled : Bool)
    (pinRS pinRW pinE pinDB7 pinDB6 pinDB5 pinDB4 pinDB3 pinDB2 pinDB1 pinDB0 : Int) :
    Bool :=
  pinBad s pinRS || (readEnabled && pinBad s pinRW) || pinBad s pinE ||
    pinBad s pinDB7 || pinBad s pinDB6 || pinBad s pinDB5 || pinBad s pinDB4 ||
    (mode8Enabled && (pinBad s pinDB3 || pinBad s pinDB2 || pinBad s pinDB1 ||
      pinBad s pinDB0))

/-- The pins `hd44780Setup` checks, with their report names, in check
order: the read/write pin only when read capability is requested, data
lines 3-0 only when the 8-bit bus is requested. -/
def checkedPins (readEnabled mode8Enabled : Bool)
    (pinRS pinRW pinE pinDB7 pinDB6 pinDB5 pinDB4 pinDB3 pinDB2 pinDB1 pinDB0 : Int) :
    List (String × Int) :=
  [("pinRS", pinRS)] ++ (if readEnabled then [("pinRW", pinRW)] else []) ++
    [("pinE", pinE), ("pinDB7", pinDB7), ("pinDB6", pinDB6), ("pinDB5", pinDB5),
     ("pinDB4", pinDB4)] ++
    (if mode8Enabled then
      [("pinDB3", pinDB3), ("pinDB2", pinDB2), ("pinDB1", pinDB1), ("pinDB0", pinDB0)]
    else [])

/-- Invariant of `hd44780Setup`'s precondition-check chain over the pins
`checked` so far: the accumulated failure flag is exactly "some checked
pin is rejected", the simulation state is unchanged apart from the trace,
only error-report events were recorded, and every rejected checked pin has
been reported with its name and id. -/
def ChecksOut (s0 : Sim) (fs : Bool × Sim) (checked : List (String × Int)) : Prop :=
  fs.1 = checked.any (fun ni => pinBad s0 ni.2) ∧
  fs.2 = { s0 with trace := fs.2.trace } ∧
  ∃ l, fs.2.trace = l ++ s0.trace ∧
    (∀ e ∈ l, ∃ n i, e = Ev.err n i) ∧
    (∀ ni ∈ checked, pinBad s0 ni.2 = true → Ev.err ni.1 ni.2 ∈ l)

/-- The delay class the (amended) specification assigns to a completed
write: extended for memory writes, the long reset class for instruction
bytes whose full value is at most 3, the short standard class otherwise. -/
def delayClassSpec (RS : Bool) (b : Nat) : Timespec :=
  if RS then extended_busy_delay
  else if b ≤ 3 then reset_busy_delay
  else standard_busy_delay

/-- The mode negotiation the code performs on a write in state `m8`, for
register-select `RS` and 8-bit payload `b`: in 4-bit state an instruction
with high nibble 0x3 switches up, in 8-bit state an instruction with high
nibble 0x2 switches down. -/
def negotiateMode (m8 RS : Bool) (b : Nat) : Bool :=
  if m8 = false then decide (RS = false ∧ b &&& 0xF0 = 0x30)
  else !decide (RS = false ∧ b &&& 0xF0 = 0x20)

/-- Discriminator for `SetupResult.fail`. -/
def SetupResult.isFail : SetupResult → Bool
  | SetupResult.fail => true
  | _ => false

/-- Discriminator for `SetupResult.crash`. -/
def SetupResult.isCrash : SetupResult → Bool
  | SetupResult.crash => true
  | _ => false

/-!  Concrete runs used to settle individual claims. -/

/-- C1 scenario, first half: a 4-bit memory write of byte 0x80 through the
write handler, on the quiescent simulated bus. -/
def c1Write : Option (hd44780DataStruct × Sim) :=
  hd44780DigitalWrite_4 node4R 64 0x80 8 simInit

/-- C1 scenario, second half: reading the memory target back through the
4-bit read handler, with no intervening write. -/
def c1ReadBack : Option Nat :=
  (c1Write.bind fun r =>
    hd44780DigitalRead_4 { node4R with dataStruct := r.1 } 64 8 r.2).map Prod.fst

/-- C2 scenario: `hd44780Setup` at base 64 with read capability and a
4-bit-only bus, on the quiescent simulation. -/
def c2Setup : SetupResult × Sim :=
  hd44780Setup 64 true false simPinRS simPinRW simPinE simPinDB7 simPinDB6 simPinDB5
    simPinDB4 simPinDB3 simPinDB2 simPinDB1 simPinDB0 simInit

/-- C2 observation: after the setup above, write FunctionSet(eightBit=true)
(byte 0x30) to the instruction target through the installed handler and
report the node's active-width flag and the still-installed handler. -/
def c2Obs : Option (Bool × Option WriteHandler) :=
  match c2Setup with
  | (SetupResult.ok node, s) =>
      (nodeDigitalWrite node 65 0x30 8 s).map (fun r => (r.1.dataStruct.mode8, r.1.dwrite))
  | _ => none

/-- C2 amended scenario: setup with the 8-bit-capable bus, then instruction
writes 0x20 (switch to 4-bit) and 0x30 (switch to 8-bit) followed by a
memory write, recording after each write the active-width flag and whether
that write drove data line 0 (a line only the 8-bit encoder touches). -/
def c2Chain : Option (Bool × Bool × Bool × Bool × Bool × Bool) :=
  match hd44780Setup 64 true true simPinRS simPinRW simPinE simPinDB7 simPinDB6 simPinDB5
      simPinDB4 simPinDB3 simPinDB2 simPinDB1 simPinDB0 simInit with
  | (SetupResult.ok node0, s0) =>
      (nodeDigitalWrite node0 65 0x20 8 s0).bind fun r1 =>
        (nodeDigitalWrite r1.1 65 0x30 8 r1.2).bind fun r2 =>
          (nodeDigitalWrite r2.1 64 0x41 8 r2.2).map fun r3 =>
            (r1.1.dataStruct.mode8, (newOf r1.2 s0).any (evTouches simPinDB0),
             r2.1.dataStruct.mode8, (newOf r2.2 r1.2).any (evTouches simPinDB0),
             r3.1.dataStruct.mode8, (newOf r3.2 r2.2).any (evTouches simPinDB0))
  | _ => none

/-- C3 counterexample run: instruction byte 0x43 (low six bits equal 3)
written through the 4-bit handler of a read-disabled node. -/
def c3Run : Option (hd44780DataStruct × Sim) :=
  hd44780DigitalWrite_4 { node4R with dataStruct := { nd4R with readEnabled := false } }
    65 0x43 8 simInit

/-- C4 counterexample run: instruction byte 0x20 (function-set, 4-bit)
written in 8-bit state; reports the new width state, whether data line 0
was driven, and the number of enable rising edges. -/
def c4Run : Option (Bool × Bool × Nat) :=
  (hd44780DigitalWrite_8 (node8W true) 65 0x20 8 simInit).map fun r =>
    (r.1.mode8, r.2.trace.any (evTouches simPinDB0), r.2.trace.count (Ev.write simPinE true))

/-- C6 run with `wiringPiNewNode` failing. -/
def c6NewNodeRun : SetupResult × Sim :=
  hd44780Setup 64 true false simPinRS simPinRW simPinE simPinDB7 simPinDB6 simPinDB5
    simPinDB4 simPinDB3 simPinDB2 simPinDB1 simPinDB0 { simInit with newNodeOk := false }

/-- C6 run with `malloc` failing. -/
def c6MallocRun : SetupResult × Sim :=
  hd44780Setup 64 true false simPinRS simPinRW simPinE simPinDB7 simPinDB6 simPinDB5
    simPinDB4 simPinDB3 simPinDB2 simPinDB1 simPinDB0 { simInit with mallocOk := false }

/-- C9 counterexample node data: read-capable, deadline one full second
away (far beyond the 100 us blind-sleep threshold). -/
def c9Node : hd44780DataStruct :=
  { nd4R with operation_end := ⟨1, 0⟩ }

/-- C9 counterexample run: the read-capable 8-bit busy wait entered with
one pending spurious wake-up. -/
def c9Run : Option Sim :=
  waitWhileBusy_8 c9Node 8 { simInit with wakes := [true] }

/-!  Projection lemmas for the simulated primitives. -/

theorem deviceOnEFall_time (s : Sim) : (deviceOnEFall s).time = s.time := by
  unfold deviceOnEFall
  repeat (first | rfl | split)

theorem deviceOnEFall_trace (s : Sim) : (deviceOnEFall s).trace = s.trace := by
  unfold deviceOnEFall
  repeat (first | rfl | split)

theorem deviceOnEFall_level (s : Sim) : (deviceOnEFall s).level = s.level := by
  unfold deviceOnEFall
  repeat (first | rfl | split)

theorem deviceOnEFall_dir (s : Sim) : (deviceOnEFall s).dir = s.dir := by
  unfold deviceOnEFall
  repeat (first | rfl | split)

theorem deviceOnEFall_busyReads (s : Sim) : (deviceOnEFall s).busyReads = s.busyReads := by
  unfold deviceOnEFall
  repeat (first | rfl | split)

theorem deviceOnEFall_registered (s : Sim) : (deviceOnEFall s).registered = s.registered := by
  unfold deviceOnEFall
  repeat (first | rfl | split)

theorem deviceOnEFall_wakes (s : Sim) : (deviceOnEFall s).wakes = s.wakes := by
  unfold deviceOnEFall
  repeat (first | rfl | split)

theorem digitalWrite_time (p : Int) (v : Bool) (s : Sim) :
    (digitalWrite p v s).time = s.time := by
  simp only [digitalWrite]
  split
  · rw [deviceOnEFall_time]
  · rfl

theorem digitalWrite_trace (p : Int) (v : Bool) (s : Sim) :
    (digitalWrite p v s).trace = Ev.write p v :: s.trace := by
  simp only [digitalWrite]
  split
  · rw [deviceOnEFall_trace]
  · rfl

theorem digitalWrite_level (p : Int) (v : Bool) (s : Sim) (q : Int) :
    (digitalWrite p v s).level q = if q = p then v else s.level q := by
  simp only [digitalWrite]
  split
  · rw [deviceOnEFall_level]
  · rfl

theorem digitalWrite_dir (p : Int) (v : Bool) (s : Sim) :
    (digitalWrite p v s).dir = s.dir := by
  simp only [digitalWrite]
  split
  · rw [deviceOnEFall_dir]
  · rfl

theorem digitalWrite_busyReads (p : Int) (v : Bool) (s : Sim) :
    (digitalWrite p v s).busyReads = s.busyReads := by
  simp only [digitalWrite]
  split
  · rw [deviceOnEFall_busyReads]
  · rfl

theorem digitalWrite_registered (p : Int) (v : Bool) (s : Sim) :
    (digitalWrite p v s).registered = s.registered := by
  simp only [digitalWrite]
  split
  · rw [deviceOnEFall_registered]
  · rfl

theorem digitalWrite_wakes (p : Int) (v : Bool) (s : Sim) :
    (digitalWrite p v s).wakes = s.wakes := by
  simp only [digitalWrite]
  split
  · rw [deviceOnEFall_wakes]
  · rfl

theorem digitalRead_snd_time (p : Int) (s : Sim) : (digitalRead p s).2.time = s.time := by
  simp only [digitalRead]
  split <;> rfl

theorem digitalRead_snd_trace (p : Int) (s : Sim) :
    (digitalRead p s).2.trace = Ev.readEv p (digitalRead p s).1 :: s.trace := by
  simp only [digitalRead]
  split <;> rfl

theorem digitalRead_snd_level (p : Int) (s : Sim) : (digitalRead p s).2.level = s.level := by
  simp only [digitalRead]
  split <;> rfl

theorem digitalRead_snd_dir (p : Int) (s : Sim) : (digitalRead p s).2.dir = s.dir := by
  simp only [digitalRead]
  split <;> rfl

theorem digitalRead_snd_wphase (p : Int) (s : Sim) :
    (digitalRead p s).2.wphase = s.wphase := by
  simp only [digitalRead]
  split <;> rfl

theorem digitalRead_snd_wakes (p : Int) (s : Sim) : (digitalRead p s).2.wakes = s.wakes := by
  simp only [digitalRead]
  split <;> rfl

theorem pinMode_time (p : Int) (d : PinDir) (s : Sim) : (pinMode p d s).time = s.time := rfl

theorem pinMode_trace (p : Int) (d : PinDir) (s : Sim) :
    (pinMode p d s).trace = Ev.modeSet p d :: s.trace := rfl

theorem pinMode_level (p : Int) (d : PinDir) (s : Sim) : (pinMode p d s).level = s.level := rfl

theorem pinMode_wphase (p : Int) (d : PinDir) (s : Sim) :
    (pinMode p d s).wphase = s.wphase := rfl

theorem pinMode_busyReads (p : Int) (d : PinDir) (s : Sim) :
    (pinMode p d s).busyReads = s.busyReads := rfl

theorem delayNanoseconds_time (n : Int) (s : Sim) :
    (delayNanoseconds n s).time = s.time + n := rfl

theorem delayNanoseconds_trace (n : Int) (s : Sim) :
    (delayNanoseconds n s).trace = Ev.delayNs n :: s.trace := rfl

theorem clock_gettime_fst (s : Sim) : (clock_gettime s).1 = nsToTimespec s.time := rfl

theorem clock_gettime_snd_time (s : Sim) : (clock_gettime s).2.time = s.time := rfl

theorem clock_gettime_snd_trace (s : Sim) :
    (clock_gettime s).2.trace = Ev.gettime (nsToTimespec s.time) :: s.trace := rfl

/-!  Helper lemmas shared between claims. -/

/-- Folded data-line writes leave the clock unchanged. -/
theorem foldl_digitalWrite_time (f : Nat → Int) (g : Nat → Bool) (l : List Nat) (s : Sim) :
    (l.foldl (fun s i => digitalWrite (f i) (g i) s) s).time = s.time := by
  induction l generalizing s with
  | nil => rfl
  | cons a t ih => simp [List.foldl, ih, digitalWrite_time]

/-- `setStatusPins` advances the clock by exactly the 50 ns settle delay. -/
theorem setStatusPins_time (nd : hd44780DataStruct) (a b : Bool) (s : Sim) :
    (setStatusPins nd a b s).time = s.time + 50 := by
  unfold setStatusPins
  cases h : nd.readEnabled <;>
    simp [h, delayNanoseconds_time, digitalWrite_time]

/-- `writeCycleStart` leaves the clock unchanged. -/
theorem writeCycleStart_time (p : Int) (s : Sim) :
    (writeCycleStart p s).time = s.time := digitalWrite_time p true s

/-- `writeCycleEnd` advances the clock by two strobe pulse widths. -/
theorem writeCycleEnd_time (p : Int) (s : Sim) :
    (writeCycleEnd p s).time = s.time + 600 := by
  unfold writeCycleEnd
  simp [delayNanoseconds_time, digitalWrite_time, enable_duration]
  omega

/-- Both write handlers depend on the written value only through its low
eight bits (the C conversion `const uint8_t data8 = data;`). -/
theorem write4_mod256 (node : wiringPiNodeStruct) (pin d : Int) (fuel : Nat) (s : Sim) :
    hd44780DigitalWrite_4 node pin d fuel s = hd44780DigitalWrite_4 node pin (d % 256) fuel s := by
  have h : d % 256 % 256 = d % 256 := Int.emod_emod_of_dvd d dvd_rfl
  simp only [hd44780DigitalWrite_4, h]

/-- The 8-bit write handler also uses only the low eight bits. -/
theorem write8_mod256 (node : wiringPiNodeStruct) (pin d : Int) (fuel : Nat) (s : Sim) :
    hd44780DigitalWrite_8 node pin d fuel s = hd44780DigitalWrite_8 node pin (d % 256) fuel s := by
  have h : d % 256 % 256 = d % 256 := Int.emod_emod_of_dvd d dvd_rfl
  simp only [hd44780DigitalWrite_8, h]

/-- The low eight bits of an int, as an integer again: a value in [0, 256). -/
theorem emod256_toNat_cast (d : Int) : ((d % 256).toNat : Int) = d % 256 := by
  have h := Int.emod_nonneg d (by norm_num : (256 : Int) ≠ 0)
  omega

/-- The low eight bits of an int are below 256. -/
theorem emod256_toNat_lt (d : Int) : (d % 256).toNat < 256 := by
  have h1 := Int.emod_nonneg d (by norm_num : (256 : Int) ≠ 0)
  have h2 := Int.emod_lt_of_pos d (by norm_num : (0 : Int) < 256)
  omega

/-- The write handlers consult the target pin only through the comparison
with the node's pin base (register-select). -/
theorem write4_pin_congr (node : wiringPiNodeStruct) (pin pin' d : Int) (fuel : Nat) (s : Sim)
    (h : decide (pin = node.pinBase) = decide (pin' = node.pinBase)) :
    hd44780DigitalWrite_4 node pin d fuel s = hd44780DigitalWrite_4 node pin' d fuel s := by
  simp only [hd44780DigitalWrite_4, h]

/-- The 8-bit write handler likewise only compares the pin with the base. -/
theorem write8_pin_congr (node : wiringPiNodeStruct) (pin pin' d : Int) (fuel : Nat) (s : Sim)
    (h : decide (pin = node.pinBase) = decide (pin' = node.pinBase)) :
    hd44780DigitalWrite_8 node pin d fuel s = hd44780DigitalWrite_8 node pin' d fuel s := by
  simp only [hd44780DigitalWrite_8, hd44780DigitalWrite_4, h]

/-- The 4-bit write handler never changes the active-width flag. -/
theorem write4_preserves_mode8 (node : wiringPiNodeStruct) (pin d : Int) (fuel : Nat)
    (s : Sim) (c : Bool) (h : node.dataStruct.mode8 = c) :
    (hd44780DigitalWrite_4 node pin d fuel s).all (fun r => decide (r.1.mode8 = c)) = true := by
  unfold hd44780DigitalWrite_4
  cases hw : waitWhileBusy_4 node.dataStruct fuel s <;> simp [Option.all, hw, h]

/-- Casting a byte value to int and taking its low eight bits is the
identity. -/
theorem natCast_emod256_toNat (b : Nat) (hb : b < 256) : (((b : Int)) % 256).toNat = b := by
  rw [Int.emod_eq_of_lt (by positivity) (by exact_mod_cast hb)]
  exact Int.toNat_natCast b

set_option maxRecDepth 4000 in
/-- On byte values the code's delay selection agrees with the amended
specification's delay-class table. -/
theorem selectDelay_spec (RS : Bool) :
    ∀ b : Nat, b < 256 → selectDelay RS b = delayClassSpec RS b := by
  cases RS
  · exact (by decide : ∀ b : Nat, b < 256 → selectDelay false b = delayClassSpec false b)
  · intro b _
    rfl

/-- Every completed 4-bit write stores `now + selectDelay` as deadline. -/
theorem write4_deadline (node : wiringPiNodeStruct) (pin d : Int) (fuel : Nat) (s : Sim) :
    ((hd44780DigitalWrite_4 node pin d fuel s).all fun r =>
      decide (r.1.operation_end = timespec_add (nsToTimespec r.2.time)
        (selectDelay (decide (pin = node.pinBase)) ((d % 256).toNat)))) = true := by
  unfold hd44780DigitalWrite_4
  cases hw : waitWhileBusy_4 node.dataStruct fuel s <;>
    simp [Option.all, hw, clock_gettime_fst, clock_gettime_snd_time]

/-- Every completed 8-bit-handler write stores `now + selectDelay`. -/
theorem write8_deadline (node : wiringPiNodeStruct) (pin d : Int) (fuel : Nat) (s : Sim) :
    ((hd44780DigitalWrite_8 node pin d fuel s).all fun r =>
      decide (r.1.operation_end = timespec_add (nsToTimespec r.2.time)
        (selectDelay (decide (pin = node.pinBase)) ((d % 256).toNat)))) = true := by
  unfold hd44780DigitalWrite_8
  have hcast : (((d % 256).toNat : Int) % 256).toNat = (d % 256).toNat :=
    natCast_emod256_toNat _ (emod256_toNat_lt d)
  cases h8 : node.dataStruct.mode8
  · simp only [h8]
    by_cases hc : (decide (pin = node.pinBase) = false ∧ (d % 256).toNat &&& 0xF0 = 0x30)
    · simp only [if_pos hc]
      have h := write4_deadline { node with dataStruct := { node.dataStruct with mode8 := true } }
        pin ((d % 256).toNat : Int) fuel s
      simp only [hcast] at h
      exact h
    · simp only [if_neg hc]
      have h := write4_deadline node pin ((d % 256).toNat : Int) fuel s
      simp only [hcast] at h
      exact h
  · simp only [h8]
    by_cases hc : (decide (pin = node.pinBase) = false ∧ (d % 256).toNat &&& 0xF0 = 0x20)
    · simp only [if_pos hc]
      cases hw : waitWhileBusy_8 { node.dataStruct with mode8 := false } fuel s <;>
        simp [Option.all, hw, clock_gettime_fst, clock_gettime_snd_time]
    · simp only [if_neg hc]
      cases hw : waitWhileBusy_8 node.dataStruct fuel s <;>
        simp [Option.all, hw, clock_gettime_fst, clock_gettime_snd_time]

/-- The 8-bit handler's mode negotiation, fully symbolically: whatever the
node, target and payload, a completed write leaves the active-width flag
exactly as `negotiateMode` prescribes. -/
theorem write8_mode_transition (node : wiringPiNodeStruct) (pin d : Int) (fuel : Nat) (s : Sim) :
    (hd44780DigitalWrite_8 node pin d fuel s).all (fun r =>
      decide (r.1.mode8 = negotiateMode node.dataStruct.mode8 (decide (pin = node.pinBase))
        ((d % 256).toNat))) = true := by
  unfold hd44780DigitalWrite_8
  cases h8 : node.dataStruct.mode8
  · simp only [h8]
    by_cases hc : (decide (pin = node.pinBase) = false ∧ (d % 256).toNat &&& 0xF0 = 0x30)
    · simp only [if_pos hc]
      exact write4_preserves_mode8 _ pin _ fuel s _ (by simp [negotiateMode, hc])
    · simp only [if_neg hc]
      refine write4_preserves_mode8 _ pin _ fuel s _ ?_
      simp only [negotiateMode, if_pos rfl, h8]
      exact (decide_eq_false hc).symm
  · simp only [h8]
    by_cases hc : (decide (pin = node.pinBase) = false ∧ (d % 256).toNat &&& 0xF0 = 0x20)
    · simp only [if_pos hc]
      cases hw : waitWhileBusy_8 { node.dataStruct with mode8 := false } fuel s <;>
        simp [Option.all, hw, negotiateMode, hc]
    · simp only [if_neg hc]
      cases hw : waitWhileBusy_8 node.dataStruct fuel s
      · simp [Option.all, hw]
      · by_cases hp : pin = node.pinBase
        · simp [Option.all, hw, h8, negotiateMode, hp]
        · have hb : ¬((d % 256).toNat &&& 0xF0 = 0x20) := fun hb => hc ⟨by simp [hp], hb⟩
          simp [Option.all, hw, h8, negotiateMode, hp, hb]

set_option maxRecDepth 8000 in
/-- Exhaustive byte sweep: in 8-bit state a write from the quiescent state
drives data line 0 and uses a single strobe cycle (memory target). -/
theorem c4width_true64 : ∀ b : Nat, b < 256 →
    (hd44780DigitalWrite_8 (node8W true) 64 (b : Int) 4 simInit).all (fun r =>
      decide (r.2.trace.any (evTouches simPinDB0) = true) &&
      decide (r.2.trace.count (Ev.write simPinE true) = 1)) = true := by decide

set_option maxRecDepth 8000 in
/-- Exhaustive byte sweep: in 8-bit state a write from the quiescent state
drives data line 0 and uses a single strobe cycle (instruction target). -/
theorem c4width_true65 : ∀ b : Nat, b < 256 →
    (hd44780DigitalWrite_8 (node8W true) 65 (b : Int) 4 simInit).all (fun r =>
      decide (r.2.trace.any (evTouches simPinDB0) = true) &&
      decide (r.2.trace.count (Ev.write simPinE true) = 1)) = true := by decide

set_option maxRecDepth 8000 in
/-- Exhaustive byte sweep: in 4-bit state a write from the quiescent state
never touches data line 0 and uses two strobe cycles (memory target). -/
theorem c4width_false64 : ∀ b : Nat, b < 256 →
    (hd44780DigitalWrite_8 (node8W false) 64 (b : Int) 4 simInit).all (fun r =>
      decide (r.2.trace.any (evTouches simPinDB0) = false) &&
      decide (r.2.trace.count (Ev.write simPinE true) = 2)) = true := by decide

set_option maxRecDepth 8000 in
/-- Exhaustive byte sweep: in 4-bit state a write from the quiescent state
never touches data line 0 and uses two strobe cycles (instruction target). -/
theorem c4width_false65 : ∀ b : Nat, b < 256 →
    (hd44780DigitalWrite_8 (node8W false) 65 (b : Int) 4 simInit).all (fun r =>
      decide (r.2.trace.any (evTouches simPinDB0) = false) &&
      decide (r.2.trace.count (Ev.write simPinE true) = 2)) = true := by decide

/-!  Theorems settling the claims. -/

/-- C10: the write handlers use only the low 8 bits of the int data
argument — writing `d` through either handler is the very same computation
as writing `d mod 256` (identical pin activity, mode transition, and delay
class), because the conversion to an 8-bit byte discards the high bits
before any use. -/
theorem C10_write_handlers_use_low_byte (node : wiringPiNodeStruct) (pin d : Int)
    (fuel : Nat) (s : Sim) :
    hd44780DigitalWrite_4 node pin d fuel s = hd44780DigitalWrite_4 node pin (d % 256) fuel s ∧
    hd44780DigitalWrite_8 node pin d fuel s = hd44780DigitalWrite_8 node pin (d % 256) fuel s :=
  ⟨write4_mod256 node pin d fuel s, write8_mod256 node pin d fuel s⟩

/-- C1: evaluation at the failing input.  Writing byte 0x80 to the memory
target through the 4-bit write handler latches exactly 0x80 on the
simulated bus, yet reading the same target back through the 4-bit read
handler, with no intervening write, returns 0x00 instead of 0x80: the
busy-wait called inside `hd44780DigitalRead_4` reconfigures data line 7
back to output after the handler had set it to input, so both sampled
nibbles take bit 3 from the stale host-driven level of that line. -/
theorem C1_memory_roundtrip_fails :
    (c1Write.map fun r => r.2.mem1) = some 0x80 ∧ c1ReadBack = some 0 ∧ (0 : Nat) ≠ 0x80 := by
  refine ⟨by decide, by decide, by decide⟩

/-- C2: counterexample.  After `hd44780Setup` with `mode8Enabled = false`
(read-capable, base 64), an instruction write of FunctionSet(eightBit=true)
(byte 0x30) through the installed write handler leaves the node's
active-width flag at `false` (FourBit) and the installed handler is still
the 4-bit encoder, so the very next write is again routed through the
4-bit encoder — the claim expects the flag to flip to EightBit and the next
write to use the 8-bit encoder. -/
theorem C2_counterexample : c2Obs = some (false, some WriteHandler.w4) := by decide

/-- C2 (amended): mode negotiation happens only in the 8-bit-capable
handler.  With `mode8Enabled = true`, after switching down with 0x20 (flag
becomes false; that byte itself still goes out through the 8-bit encoder,
driving data line 0), an instruction write of FunctionSet(eightBit=true)
(0x30) flips the flag back to true while being transmitted through the
4-bit encoder (no touch of data line 0), and the very next write is routed
through the 8-bit encoder (drives data line 0).  With
`mode8Enabled = false` the installed 4-bit handler performs no negotiation
(see the counterexample). -/
theorem C2_amended_negotiation_needs_mode8 :
    c2Chain = some (false, true, true, false, true, true) := by decide

/-- C3: counterexample.  The instruction byte 0x43 has low six bits equal
to 3, so the claim demands the long (reset) delay class (1.52 ms), but the
completed write stores a deadline exactly 37000 ns (the short standard
class) past the completion instant, because the code compares the whole
byte, not its low six bits, against 3. -/
theorem C3_counterexample :
    (c3Run.map fun r => timespecToNs r.1.operation_end - r.2.time) = some 37000 ∧
    0x43 % 64 ≤ 3 ∧
    timespecToNs standard_busy_delay = 37000 ∧
    timespecToNs reset_busy_delay = 1520000 ∧ (37000 : Int) ≠ 1520000 := by
  refine ⟨by decide, by decide, by decide, by decide, by decide⟩

/-- C6: evaluation at the failing input.  When `wiringPiNewNode` fails the
code prints the error but is missing a `return`, so `hd44780Setup` goes on
to dereference the null node pointer (modelled as `SetupResult.crash`)
instead of returning failure; when `malloc` for the node data fails it
does return failure cleanly (and no handlers are installed, as only a
successful setup produces a node). -/
theorem C6_null_node_crashes :
    c6NewNodeRun.1.isCrash = true ∧ c6MallocRun.1.isFail = true := by
  refine ⟨by decide, by decide⟩

/-- C9: counterexample.  With the stored deadline a full second away and a
spurious wake-up pending, the read-capable busy wait issues its blind
sleep exactly once, that sleep returns early (nonzero status, recorded
return 4), no re-sleep happens, and the wait returns with the clock still
far before the absolute deadline — refuting that the read-capable
blind-sleep never returns before the deadline is truly reached. -/
theorem C9_counterexample :
    (c9Run.map fun s => (decide (s.time < timespecToNs c9Node.operation_end),
      s.trace.countP isSleepEv, s.trace.count (Ev.sleepAbs ⟨1, 0⟩ 4))) =
      some (true, 1, 1) := by decide

/-- C4: counterexample.  In 8-bit state, the instruction byte 0x20
(function-set requesting 4-bit width) flips the state to FourBit, yet that
very byte is transmitted through the 8-bit encoder: a single enable strobe
cycle that drives data line 0 — the claim instead requires the byte
requesting the switch to be transmitted using the newly active 4-bit width
(two strobe cycles, data lines 0-3 untouched). -/
theorem C4_counterexample : c4Run = some (false, true, 1) := by decide

/-- C3 (amended): for every completed write through either handler, the
recovery delay class stored into the node's deadline is: the extended
class if register-select was asserted (memory write); the long (reset)
class if register-select was deasserted and the whole instruction byte is
at most 3 (the clear/home reset instructions); the short (standard) class
for every other instruction byte.  (The original claim's "low six bits"
reading fails, see the counterexample: the code compares the entire
byte.) -/
theorem C3_amended_delay_class (node : wiringPiNodeStruct) (pin d : Int) (fuel : Nat)
    (s : Sim) :
    ((hd44780DigitalWrite_4 node pin d fuel s).all fun r =>
      decide (r.1.operation_end = timespec_add (nsToTimespec r.2.time)
        (delayClassSpec (decide (pin = node.pinBase)) ((d % 256).toNat)))) = true ∧
    ((hd44780DigitalWrite_8 node pin d fuel s).all fun r =>
      decide (r.1.operation_end = timespec_add (nsToTimespec r.2.time)
        (delayClassSpec (decide (pin = node.pinBase)) ((d % 256).toNat)))) = true := by
  have hsd : delayClassSpec (decide (pin = node.pinBase)) ((d % 256).toNat) =
      selectDelay (decide (pin = node.pinBase)) ((d % 256).toNat) :=
    (selectDelay_spec _ _ (emod256_toNat_lt d)).symm
  constructor
  · simp only [hsd]
    exact write4_deadline node pin d fuel s
  · simp only [hsd]
    exact write8_deadline node pin d fuel s

/-- C4 (amended): on every write processed by the 8-bit handler the
active-width state transitions exactly per the negotiation table — in
FourBit, an instruction byte with high nibble 0x3 switches to EightBit; in
EightBit, an instruction byte with high nibble 0x2 switches to FourBit; no
transition on memory writes or other bytes (first conjunct, fully general).
However, the byte requesting the switch is transmitted using the
*previously* active width: the encoder variant follows the state from
before the byte, so a write in EightBit state always drives data line 0 in
a single strobe cycle and a write in FourBit state never touches it and
uses two cycles (second conjunct, from the quiescent bus state). -/
theorem C4_amended_switch_byte_travels_in_old_width (m8 : Bool) (pin d : Int) :
    ((hd44780DigitalWrite_8 (node8W m8) pin d 4 simInit).all (fun r =>
      decide (r.1.mode8 = negotiateMode m8 (decide (pin = 64)) ((d % 256).toNat)))) = true ∧
    ((hd44780DigitalWrite_8 (node8W m8) pin d 4 simInit).all (fun r =>
      decide (r.2.trace.any (evTouches simPinDB0) = m8) &&
      decide (r.2.trace.count (Ev.write simPinE true) = if m8 then 1 else 2))) = true := by
  have hmode := write8_mode_transition (node8W m8) pin d 4 simInit
  rw [write8_mod256, ← emod256_toNat_cast] at *
  have hb := emod256_toNat_lt d
  have hwidth :
      (hd44780DigitalWrite_8 (node8W m8) pin (((d % 256).toNat : Nat) : Int) 4 simInit).all
        (fun r => decide (r.2.trace.any (evTouches simPinDB0) = m8) &&
          decide (r.2.trace.count (Ev.write simPinE true) = if m8 then 1 else 2)) = true := by
    by_cases hp : pin = 64
    · subst hp
      cases m8
      · simpa using c4width_false64 _ hb
      · simpa using c4width_true64 _ hb
    · rw [write8_pin_congr (node8W m8) pin 65 _ 4 simInit (by
        show decide (pin = 64) = decide ((65 : Int) = 64)
        simp [hp])]
      cases m8
      · simpa using c4width_false65 _ hb
      · simpa using c4width_true65 _ hb
  refine ⟨?_, hwidth⟩
  rcases hre : hd44780DigitalWrite_8 (node8W m8) pin (((d % 256).toNat : Nat) : Int) 4 simInit
    with _ | r
  · simp [Option.all, hre]
  · rw [hre] at hmode
    simp only [Option.all] at hmode ⊢
    simpa [node8W, nd8W] using hmode

/-- A completed absolute sleep lands at or past the deadline; an
interrupted one leaves the clock unchanged. -/
theorem clock_nanosleep_abs_spec (dl : Timespec) (s : Sim) :
    ((clock_nanosleep_abs dl s).1 = 0 → timespecToNs dl ≤ (clock_nanosleep_abs dl s).2.time) ∧
    ((clock_nanosleep_abs dl s).1 ≠ 0 → (clock_nanosleep_abs dl s).2.time = s.time) := by
  unfold clock_nanosleep_abs
  rcases s.wakes with _ | ⟨_ | _, rest⟩ <;> simp [le_max_right]

/-- Whenever the re-sleeping loop terminates, the clock has truly reached
the absolute deadline, however many spurious wake-ups occurred. -/
theorem sleepLoop_reaches_deadline (dl : Timespec) :
    ∀ fuel : Nat, ∀ s : Sim,
      ((sleepLoop dl fuel s).all fun s' => decide (timespecToNs dl ≤ s'.time)) = true := by
  intro fuel
  induction fuel with
  | zero => intro s; rfl
  | succ f ih =>
      intro s
      unfold sleepLoop
      by_cases h0 : (clock_nanosleep_abs dl s).1 = 0
      · simp only [if_pos h0, Option.all]
        exact decide_eq_true ((clock_nanosleep_abs_spec dl s).1 h0)
      · simp only [if_neg h0]
        exact ih _

/-- Lexicographic timespec comparison against the clock reading agrees
with the nanosecond total, for normalized nanosecond fields. -/
theorem timespec_gt_false_le (ts : Timespec) (t : Int) (h0 : 0 ≤ ts.tv_nsec)
    (h1 : ts.tv_nsec < 1000000000) (hgt : timespec_gt ts (nsToTimespec t) = false) :
    timespecToNs ts ≤ t := by
  have hd := Int.ediv_add_emod t 1000000000
  have hm1 := Int.emod_nonneg t (by norm_num : (1000000000 : Int) ≠ 0)
  have hm2 := Int.emod_lt_of_pos t (by norm_num : (0 : Int) < 1000000000)
  unfold timespec_gt nsToTimespec at hgt
  unfold timespecToNs
  split at hgt
  · next heq =>
      simp only [decide_eq_false_iff_not, not_lt] at hgt
      nlinarith [heq]
  · next hne =>
      simp only [decide_eq_false_iff_not, not_lt] at hgt
      have : ts.tv_sec < t / 1000000000 := lt_of_le_of_ne hgt hne
      nlinarith

/-- C9 (amended): the read-disabled wait is interruption-tolerant — it
loops the absolute sleep until the sleep succeeds, so whenever it returns
the monotonic clock has truly reached the stored deadline, for any number
of spurious early wake-ups.  (The read-capable paths' blind-sleep, by
contrast, is issued once and not retried: see the counterexample.) -/
theorem C9_amended_read_disabled_sleeps_to_deadline (nodeData : hd44780DataStruct)
    (fuel : Nat) (s : Sim) (h0 : 0 ≤ nodeData.operation_end.tv_nsec)
    (h1 : nodeData.operation_end.tv_nsec < 1000000000) :
    ((waitWhileBusy_ReadDisabled nodeData fuel s).all fun s' =>
      decide (timespecToNs nodeData.operation_end ≤ s'.time)) = true := by
  unfold waitWhileBusy_ReadDisabled
  by_cases hgt : timespec_gt nodeData.operation_end (clock_gettime s).1 = true
  · simp only [hgt, if_pos rfl]
    exact sleepLoop_reaches_deadline _ fuel _
  · rw [Bool.not_eq_true] at hgt
    simp only [hgt]
    simp only [Bool.false_eq_true, if_false, Option.all]
    refine decide_eq_true ?_
    have := timespec_gt_false_le nodeData.operation_end s.time h0 h1 (by
      simpa [clock_gettime_fst] using hgt)
    simpa [clock_gettime] using this

/-- C9 witness: the theorem applied to a concrete wait whose deadline is
500 ns away, with one spurious wake-up pending. -/
theorem C9_amended_witness :
    ((0 : Int) ≤ (500 : Int) ∧ (500 : Int) < 1000000000) ∧
    ((waitWhileBusy_ReadDisabled { nd4R with readEnabled := false, operation_end := ⟨0, 500⟩ }
        3 { simInit with wakes := [true, false] }).all fun s' =>
      decide (timespecToNs (⟨0, 500⟩ : Timespec) ≤ s'.time)) = true :=
  ⟨⟨by decide, by decide⟩,
    C9_amended_read_disabled_sleeps_to_deadline
      { nd4R with readEnabled := false, operation_end := ⟨0, 500⟩ } 3
      { simInit with wakes := [true, false] } (by decide) (by decide)⟩

/-- Rejected checks build only error reports and an accumulated flag. -/
theorem checksOut_base (s0 : Sim) : ChecksOut s0 (false, s0) [] :=
  ⟨rfl, rfl, [], rfl, by simp, by simp⟩

theorem checksOut_step (s0 : Sim) (fs : Bool × Sim) (checked : List (String × Int))
    (n : String) (id : Int) (h : ChecksOut s0 fs checked) :
    ChecksOut s0 (checkPin n id fs) (checked ++ [(n, id)]) := by
  obtain ⟨h1, h2, l, hl, herr, hmem⟩ := h
  have hreg : fs.2.registered = s0.registered := by rw [h2]
  have hbadc : pinBad fs.2 id = pinBad s0 id := by unfold pinBad; rw [hreg]
  unfold checkPin
  by_cases hb : (id < 0 ∨ (id ≥ 64 ∧ ¬ fs.2.registered id = true))
  · have hpb : pinBad s0 id = true := by
      rw [← hbadc]
      exact decide_eq_true hb
    simp only [if_pos hb]
    refine ⟨by simp [hpb], by rw [h2], Ev.err n id :: l, by rw [hl]; rfl, ?_, ?_⟩
    · intro e he
      rcases List.mem_cons.mp he with rfl | he
      · exact ⟨n, id, rfl⟩
      · exact herr e he
    · intro ni hni hpi
      rcases List.mem_append.mp hni with hni | hni
      · exact List.mem_cons_of_mem _ (hmem ni hni hpi)
      · simp only [List.mem_singleton] at hni
        subst hni
        exact List.mem_cons_self _ _
  · have hpb : pinBad s0 id = false := by
      rw [← hbadc]
      exact decide_eq_false hb
    simp only [if_neg hb]
    refine ⟨by simp [hpb, h1], h2, l, hl, herr, ?_⟩
    intro ni hni hpi
    rcases List.mem_append.mp hni with hni | hni
    · exact hmem ni hni hpi
    · simp only [List.mem_singleton] at hni
      subst hni
      simp [hpi] at hpb

/-- C5: whenever any pin referenced by the configuration is invalid
(negative, or at least 64 with no registered pseudo-pin node),
`hd44780Setup` returns failure, the only events produced are per-pin error
reports and the final failure message (so no node allocation, no handler
installation, no pin write, no direction change and no pull configuration
happen), and every invalid referenced pin is reported with its parameter
name and id — all violations are collected in one pass. -/
theorem C5_invalid_pins_fail_cleanly (pinBase : Int) (readEnabled mode8Enabled : Bool)
    (pinRS pinRW pinE pinDB7 pinDB6 pinDB5 pinDB4 pinDB3 pinDB2 pinDB1 pinDB0 : Int)
    (s : Sim)
    (hbad : referencedBad s readEnabled mode8Enabled pinRS pinRW pinE pinDB7 pinDB6 pinDB5
      pinDB4 pinDB3 pinDB2 pinDB1 pinDB0 = true) :
    (hd44780Setup pinBase readEnabled mode8Enabled pinRS pinRW pinE pinDB7 pinDB6 pinDB5
      pinDB4 pinDB3 pinDB2 pinDB1 pinDB0 s).1.isFail = true ∧
    ∃ l, (hd44780Setup pinBase readEnabled mode8Enabled pinRS pinRW pinE pinDB7 pinDB6
        pinDB5 pinDB4 pinDB3 pinDB2 pinDB1 pinDB0 s).2.trace = l ++ s.trace ∧
      (∀ e ∈ l, (∃ n i, e = Ev.err n i) ∨ e = Ev.msg "hd44780Setup() failed.") ∧
      (∀ ni ∈ checkedPins readEnabled mode8Enabled pinRS pinRW pinE pinDB7 pinDB6 pinDB5
          pinDB4 pinDB3 pinDB2 pinDB1 pinDB0,
        pinBad s ni.2 = true → Ev.err ni.1 ni.2 ∈ l) := by
  cases readEnabled <;> cases mode8Enabled
  · -- readEnabled = false, mode8Enabled = false
    unfold hd44780Setup
    simp only [Bool.false_eq_true, if_false, if_true]
    have h1 := checksOut_step s _ _ "pinRS" pinRS (checksOut_base s)
    have h2 := checksOut_step s _ _ "pinE" pinE h1
    have h3 := checksOut_step s _ _ "pinDB7" pinDB7 h2
    have h4 := checksOut_step s _ _ "pinDB6" pinDB6 h3
    have h5 := checksOut_step s _ _ "pinDB5" pinDB5 h4
    have h6 := checksOut_step s _ _ "pinDB4" pinDB4 h5
    obtain ⟨hflag, hstate, l, hl, herr, hmem⟩ := h6
    simp only [List.nil_append, List.singleton_append, List.cons_append,
      List.append_nil] at hflag hmem
    have hft : (checkPin "pinDB4" pinDB4 (checkPin "pinDB5" pinDB5 (checkPin "pinDB6" pinDB6
        (checkPin "pinDB7" pinDB7 (checkPin "pinE" pinE
          (checkPin "pinRS" pinRS (false, s))))))).1 = true := by
      rw [hflag]
      simp only [referencedBad, Bool.false_and, Bool.or_false, Bool.false_or] at hbad
      simp only [List.any_cons, List.any_nil, Bool.or_false]
      simp only [Bool.or_eq_true] at hbad ⊢
      tauto
    rw [if_pos hft]
    refine ⟨rfl, Ev.msg "hd44780Setup() failed." :: l, by rw [hl]; rfl, ?_, ?_⟩
    · intro e he
      rcases List.mem_cons.mp he with rfl | he
      · exact Or.inr rfl
      · exact Or.inl (herr e he)
    · intro ni hni hpi
      simp only [checkedPins, Bool.false_eq_true, if_false, List.nil_append,
        List.singleton_append, List.cons_append, List.append_nil] at hni
      exact List.mem_cons_of_mem _ (hmem ni hni hpi)
  · -- readEnabled = false, mode8Enabled = true
    unfold hd44780Setup
    simp only [Bool.false_eq_true, if_false, eq_self_iff_true, if_true]
    have h1 := checksOut_step s _ _ "pinRS" pinRS (checksOut_base s)
    have h2 := checksOut_step s _ _ "pinE" pinE h1
    have h3 := checksOut_step s _ _ "pinDB7" pinDB7 h2
    have h4 := checksOut_step s _ _ "pinDB6" pinDB6 h3
    have h5 := checksOut_step s _ _ "pinDB5" pinDB5 h4
    have h6 := checksOut_step s _ _ "pinDB4" pinDB4 h5
    have h7 := checksOut_step s _ _ "pinDB3" pinDB3 h6
    have h8 := checksOut_step s _ _ "pinDB2" pinDB2 h7
    have h9 := checksOut_step s _ _ "pinDB1" pinDB1 h8
    have h10 := checksOut_step s _ _ "pinDB0" pinDB0 h9
    obtain ⟨hflag, hstate, l, hl, herr, hmem⟩ := h10
    simp only [List.nil_append, List.singleton_append, List.cons_append,
      List.append_nil] at hflag hmem
    have hft : (checkPin "pinDB0" pinDB0 (checkPin "pinDB1" pinDB1 (checkPin "pinDB2" pinDB2
        (checkPin "pinDB3" pinDB3 (checkPin "pinDB4" pinDB4 (checkPin "pinDB5" pinDB5
          (checkPin "pinDB6" pinDB6 (checkPin "pinDB7" pinDB7 (checkPin "pinE" pinE
            (checkPin "pinRS" pinRS (false, s))))))))))).1 = true := by
      rw [hflag]
      simp only [referencedBad, Bool.false_and, Bool.true_and, Bool.or_false,
        Bool.false_or] at hbad
      simp only [List.any_cons, List.any_nil, Bool.or_false]
      simp only [Bool.or_eq_true] at hbad ⊢
      tauto
    rw [if_pos hft]
    refine ⟨rfl, Ev.msg "hd44780Setup() failed." :: l, by rw [hl]; rfl, ?_, ?_⟩
    · intro e he
      rcases List.mem_cons.mp he with rfl | he
      · exact Or.inr rfl
      · exact Or.inl (herr e he)
    · intro ni hni hpi
      simp only [checkedPins, Bool.false_eq_true, if_false, eq_self_iff_true, if_true,
        List.nil_append, List.singleton_append, List.cons_append, List.append_nil] at hni
      exact List.mem_cons_of_mem _ (hmem ni hni hpi)
  · -- readEnabled = true, mode8Enabled = false
    unfold hd44780Setup
    simp only [Bool.false_eq_true, if_false, eq_self_iff_true, if_true]
    have h1 := checksOut_step s _ _ "pinRS" pinRS (checksOut_base s)
    have h1b := checksOut_step s _ _ "pinRW" pinRW h1
    have h2 := checksOut_step s _ _ "pinE" pinE h1b
    have h3 := checksOut_step s _ _ "pinDB7" pinDB7 h2
    have h4 := checksOut_step s _ _ "pinDB6" pinDB6 h3
    have h5 := checksOut_step s _ _ "pinDB5" pinDB5 h4
    have h6 := checksOut_step s _ _ "pinDB4" pinDB4 h5
    obtain ⟨hflag, hstate, l, hl, herr, hmem⟩ := h6
    simp only [List.nil_append, List.singleton_append, List.cons_append,
      List.append_nil] at hflag hmem
    have hft : (checkPin "pinDB4" pinDB4 (checkPin "pinDB5" pinDB5 (checkPin "pinDB6" pinDB6
        (checkPin "pinDB7" pinDB7 (checkPin "pinE" pinE (checkPin "pinRW" pinRW
          (checkPin "pinRS" pinRS (false, s)))))))).1 = true := by
      rw [hflag]
      simp only [referencedBad, Bool.false_and, Bool.true_and, Bool.or_false,
        Bool.false_or] at hbad
      simp only [List.any_cons, List.any_nil, Bool.or_false]
      simp only [Bool.or_eq_true] at hbad ⊢
      tauto
    rw [if_pos hft]
    refine ⟨rfl, Ev.msg "hd44780Setup() failed." :: l, by rw [hl]; rfl, ?_, ?_⟩
    · intro e he
      rcases List.mem_cons.mp he with rfl | he
      · exact Or.inr rfl
      · exact Or.inl (herr e he)
    · intro ni hni hpi
      simp only [checkedPins, Bool.false_eq_true, if_false, eq_self_iff_true, if_true,
        List.nil_append, List.singleton_append, List.cons_append, List.append_nil] at hni
      exact List.mem_cons_of_mem _ (hmem ni hni hpi)
  · -- readEnabled = true, mode8Enabled = true
    unfold hd44780Setup
    simp only [Bool.false_eq_true, if_false, eq_self_iff_true, if_true]
    have h1 := checksOut_step s _ _ "pinRS" pinRS (checksOut_base s)
    have h1b := checksOut_step s _ _ "pinRW" pinRW h1
    have h2 := checksOut_step s _ _ "pinE" pinE h1b
    have h3 := checksOut_step s _ _ "pinDB7" pinDB7 h2
    have h4 := checksOut_step s _ _ "pinDB6" pinDB6 h3
    have h5 := checksOut_step s _ _ "pinDB5" pinDB5 h4
    have h6 := checksOut_step s _ _ "pinDB4" pinDB4 h5
    have h7 := checksOut_step s _ _ "pinDB3" pinDB3 h6
    have h8 := checksOut_step s _ _ "pinDB2" pinDB2 h7
    have h9 := checksOut_step s _ _ "pinDB1" pinDB1 h8
    have h10 := checksOut_step s _ _ "pinDB0" pinDB0 h9
    obtain ⟨hflag, hstate, l, hl, herr, hmem⟩ := h10
    simp only [List.nil_append, List.singleton_append, List.cons_append,
      List.append_nil] at hflag hmem
    have hft : (checkPin "pinDB0" pinDB0 (checkPin "pinDB1" pinDB1 (checkPin "pinDB2" pinDB2
        (checkPin "pinDB3" pinDB3 (checkPin "pinDB4" pinDB4 (checkPin "pinDB5" pinDB5
          (checkPin "pinDB6" pinDB6 (checkPin "pinDB7" pinDB7 (checkPin "pinE" pinE
            (checkPin "pinRW" pinRW (checkPin "pinRS" pinRS (false, s)))))))))))).1 = true := by
      rw [hflag]
      simp only [referencedBad, Bool.true_and, Bool.or_false, Bool.false_or] at hbad
      simp only [List.any_cons, List.any_nil, Bool.or_false]
      simp only [Bool.or_eq_true] at hbad ⊢
      tauto
    rw [if_pos hft]
    refine ⟨rfl, Ev.msg "hd44780Setup() failed." :: l, by rw [hl]; rfl, ?_, ?_⟩
    · intro e he
      rcases List.mem_cons.mp he with rfl | he
      · exact Or.inr rfl
      · exact Or.inl (herr e he)
    · intro ni hni hpi
      simp only [checkedPins, eq_self_iff_true, if_true, List.nil_append,
        List.singleton_append, List.cons_append, List.append_nil] at hni
      exact List.mem_cons_of_mem _ (hmem ni hni hpi)


/-- C5 witness: the theorem applied to a setup call with a negative
register-select pin and an unregistered pseudo-pin for read/write. -/
theorem C5_witness :
    referencedBad simInit true false (-1) 70 6 26 25 24 23 22 21 20 19 = true ∧
    ((hd44780Setup 64 true false (-1) 70 6 26 25 24 23 22 21 20 19 simInit).1.isFail = true ∧
    ∃ l, (hd44780Setup 64 true false (-1) 70 6 26 25 24 23 22 21 20 19 simInit).2.trace =
        l ++ simInit.trace ∧
      (∀ e ∈ l, (∃ n i, e = Ev.err n i) ∨ e = Ev.msg "hd44780Setup() failed.") ∧
      (∀ ni ∈ checkedPins true false (-1) 70 6 26 25 24 23 22 21 20 19,
        pinBad simInit ni.2 = true → Ev.err ni.1 ni.2 ∈ l)) :=
  ⟨by decide, C5_invalid_pins_fail_cleanly 64 true false (-1) 70 6 26 25 24 23 22 21 20 19
    simInit (by decide)⟩

/-!  Trace-frame machinery: runs that never touch a protected pin. -/

theorem untouched_refl (p : Int) (s : Sim) : Untouched p s s :=
  ⟨[], rfl, by simp⟩

theorem untouched_trans {p : Int} {a b c : Sim} (h1 : Untouched p a b)
    (h2 : Untouched p b c) : Untouched p a c := by
  obtain ⟨l1, ht1, he1⟩ := h1
  obtain ⟨l2, ht2, he2⟩ := h2
  refine ⟨l2 ++ l1, by rw [ht2, ht1, List.append_assoc], ?_⟩
  intro e he
  rcases List.mem_append.mp he with he | he
  · exact he2 e he
  · exact he1 e he

theorem untouched_digitalWrite (p q : Int) (v : Bool) (s : Sim) (h : q ≠ p) :
    Untouched p s (digitalWrite q v s) :=
  ⟨[Ev.write q v], digitalWrite_trace q v s, by simp [evTouches, h]⟩

theorem untouched_digitalRead (p q : Int) (s : Sim) :
    Untouched p s (digitalRead q s).2 :=
  ⟨[Ev.readEv q (digitalRead q s).1], digitalRead_snd_trace q s, by simp [evTouches]⟩

theorem untouched_pinMode (p q : Int) (d : PinDir) (s : Sim) (h : q ≠ p) :
    Untouched p s (pinMode q d s) :=
  ⟨[Ev.modeSet q d], rfl, by simp [evTouches, h]⟩

theorem untouched_pull (p q : Int) (v : Int) (s : Sim) (h : q ≠ p) :
    Untouched p s (pullUpDnControl q v s) :=
  ⟨[Ev.pull q v], rfl, by simp [evTouches, h]⟩

theorem untouched_delayNs (p : Int) (n : Int) (s : Sim) :
    Untouched p s (delayNanoseconds n s) :=
  ⟨[Ev.delayNs n], rfl, by simp [evTouches]⟩

theorem untouched_delayUs (p : Int) (n : Int) (s : Sim) :
    Untouched p s (delayMicroseconds n s) :=
  ⟨[Ev.delayUs n], rfl, by simp [evTouches]⟩

theorem untouched_gettime (p : Int) (s : Sim) :
    Untouched p s (clock_gettime s).2 :=
  ⟨[Ev.gettime (nsToTimespec s.time)], rfl, by simp [evTouches]⟩

theorem clock_nanosleep_abs_snd_trace (dl : Timespec) (s : Sim) :
    (clock_nanosleep_abs dl s).2.trace =
      Ev.sleepAbs dl (clock_nanosleep_abs dl s).1 :: s.trace := by
  unfold clock_nanosleep_abs
  rcases s.wakes with _ | ⟨_ | _, rest⟩ <;> rfl

theorem untouched_nanosleep (p : Int) (dl : Timespec) (s : Sim) :
    Untouched p s (clock_nanosleep_abs dl s).2 :=
  ⟨[Ev.sleepAbs dl (clock_nanosleep_abs dl s).1], clock_nanosleep_abs_snd_trace dl s,
    by simp [evTouches]⟩

theorem untouched_setStatusPins (p : Int) (nd : hd44780DataStruct) (a b : Bool) (s : Sim)
    (hRS : nd.pinRS ≠ p) (hRW : nd.readEnabled = true → nd.pinRW ≠ p) :
    Untouched p s (setStatusPins nd a b s) := by
  unfold setStatusPins
  cases hre : nd.readEnabled
  · simp only [hre, Bool.false_eq_true, if_false]
    exact untouched_trans (untouched_digitalWrite p _ a s hRS) (untouched_delayNs p 50 _)
  · simp only [hre, if_true]
    exact untouched_trans (untouched_digitalWrite p _ a s hRS)
      (untouched_trans (untouched_digitalWrite p _ b _ (hRW hre)) (untouched_delayNs p 50 _))

theorem untouched_writeCycleStart (p pinE : Int) (s : Sim) (hE : pinE ≠ p) :
    Untouched p s (writeCycleStart pinE s) :=
  untouched_digitalWrite p pinE true s hE

theorem untouched_writeCycleEnd (p pinE : Int) (s : Sim) (hE : pinE ≠ p) :
    Untouched p s (writeCycleEnd pinE s) :=
  untouched_trans (untouched_delayNs p _ s)
    (untouched_trans (untouched_digitalWrite p pinE false _ hE) (untouched_delayNs p _ _))

theorem untouched_readCycleStart (p pinE : Int) (s : Sim) (hE : pinE ≠ p) :
    Untouched p s (readCycleStart pinE s) :=
  untouched_trans (untouched_digitalWrite p pinE true s hE) (untouched_delayNs p _ _)

theorem untouched_readCycleEnd (p pinE : Int) (s : Sim) (hE : pinE ≠ p) :
    Untouched p s (readCycleEnd pinE s) :=
  untouched_trans (untouched_digitalWrite p pinE false s hE) (untouched_delayNs p _ _)

theorem untouched_foldl_digitalWrite (p : Int) (f : Nat → Int) (g : Nat → Bool)
    (l : List Nat) (s : Sim) (hf : ∀ i ∈ l, f i ≠ p) :
    Untouched p s (l.foldl (fun s i => digitalWrite (f i) (g i) s) s) := by
  induction l generalizing s with
  | nil => exact untouched_refl p s
  | cons a t ih =>
      simp only [List.foldl_cons]
      exact untouched_trans
        (untouched_digitalWrite p (f a) (g a) s (hf a (List.mem_cons_self a t)))
        (ih _ (fun i hi => hf i (List.mem_cons_of_mem a hi)))

theorem untouched_foldl_pinMode (p : Int) (f : Nat → Int) (d : PinDir)
    (l : List Nat) (s : Sim) (hf : ∀ i ∈ l, f i ≠ p) :
    Untouched p s (l.foldl (fun s i => pinMode (f i) d s) s) := by
  induction l generalizing s with
  | nil => exact untouched_refl p s
  | cons a t ih =>
      simp only [List.foldl_cons]
      exact untouched_trans
        (untouched_pinMode p (f a) d s (hf a (List.mem_cons_self a t)))
        (ih _ (fun i hi => hf i (List.mem_cons_of_mem a hi)))

theorem untouched_sleepLoop (p : Int) (dl : Timespec) :
    ∀ (fuel : Nat) (s : Sim), UntouchedOpt p s (sleepLoop dl fuel s) := by
  intro fuel
  induction fuel with
  | zero => intro s; trivial
  | succ f ih =>
      intro s
      unfold sleepLoop
      by_cases h0 : (clock_nanosleep_abs dl s).1 = 0
      · simp only [if_pos h0]
        exact untouched_nanosleep p dl s
      · simp only [if_neg h0]
        have h1 := ih (clock_nanosleep_abs dl s).2
        rcases hr : sleepLoop dl f (clock_nanosleep_abs dl s).2 with _ | s'
        · trivial
        · rw [hr] at h1
          exact untouched_trans (untouched_nanosleep p dl s) h1

theorem untouched_waitReadDisabled (p : Int) (nd : hd44780DataStruct) (fuel : Nat)
    (s : Sim) : UntouchedOpt p s (waitWhileBusy_ReadDisabled nd fuel s) := by
  unfold waitWhileBusy_ReadDisabled
  simp only []
  split
  · have h1 := untouched_sleepLoop p nd.operation_end fuel (clock_gettime s).2
    rcases hr : sleepLoop nd.operation_end fuel (clock_gettime s).2 with _ | s'
    · trivial
    · rw [hr] at h1
      exact untouched_trans (untouched_gettime p s) h1
  · exact untouched_trans (untouched_gettime p s) (untouched_refl p _)



theorem untouched_busyPoll_4 (p : Int) (nd : hd44780DataStruct) (hE : nd.pinE ≠ p) :
    ∀ (fuel : Nat) (s : Sim), UntouchedOpt p s (busyPoll_4 nd fuel s) := by
  intro fuel
  induction fuel with
  | zero => intro s; trivial
  | succ f ih =>
      intro s
      unfold busyPoll_4
      by_cases hb : (digitalRead (nd.pinDB 7) s).1
      · simp only [if_pos hb]
        set s4 := readCycleStart nd.pinE (readCycleEnd nd.pinE
          (readCycleStart nd.pinE (readCycleEnd nd.pinE (digitalRead (nd.pinDB 7) s).2)))
          with hs4
        have hstep : Untouched p s s4 := by
          rw [hs4]
          exact untouched_trans (untouched_digitalRead p _ s)
            (untouched_trans (untouched_readCycleEnd p _ _ hE)
              (untouched_trans (untouched_readCycleStart p _ _ hE)
                (untouched_trans (untouched_readCycleEnd p _ _ hE)
                  (untouched_readCycleStart p _ _ hE))))
        have h1 := ih s4
        rcases hr : busyPoll_4 nd f s4 with _ | s'
        · simp only [UntouchedOpt, hr]
        · rw [hr] at h1
          exact untouched_trans hstep h1
      · simp only [if_neg hb]
        exact untouched_digitalRead p _ s

theorem untouched_busyPoll_8 (p : Int) (nd : hd44780DataStruct) (hE : nd.pinE ≠ p) :
    ∀ (fuel : Nat) (s : Sim), UntouchedOpt p s (busyPoll_8 nd fuel s) := by
  intro fuel
  induction fuel with
  | zero => intro s; trivial
  | succ f ih =>
      intro s
      unfold busyPoll_8
      by_cases hb : (digitalRead (nd.pinDB 7) s).1
      · simp only [if_pos hb]
        set s2 := readCycleStart nd.pinE (readCycleEnd nd.pinE (digitalRead (nd.pinDB 7) s).2)
          with hs2
        have hstep : Untouched p s s2 := by
          rw [hs2]
          exact untouched_trans (untouched_digitalRead p _ s)
            (untouched_trans (untouched_readCycleEnd p _ _ hE)
              (untouched_readCycleStart p _ _ hE))
        have h1 := ih s2
        rcases hr : busyPoll_8 nd f s2 with _ | s'
        · simp only [UntouchedOpt, hr]
        · rw [hr] at h1
          exact untouched_trans hstep h1
      · simp only [if_neg hb]
        exact untouched_digitalRead p _ s

theorem untouched_wait4 (p : Int) (nd : hd44780DataStruct) (fuel : Nat) (s : Sim)
    (hE : nd.pinE ≠ p) (hRS : nd.pinRS ≠ p) (hRW : nd.readEnabled = true → nd.pinRW ≠ p)
    (hDB7 : nd.pinDB 7 ≠ p) : UntouchedOpt p s (waitWhileBusy_4 nd fuel s) := by
  unfold waitWhileBusy_4
  cases hre : nd.readEnabled
  · simp only [Bool.false_eq_true, if_false]
    exact untouched_waitReadDisabled p nd fuel s
  · simp only [if_true]
    set s1 := if farFromDeadline nd.operation_end (clock_gettime s).1 then
      (clock_nanosleep_abs nd.operation_end (clock_gettime s).2).2 else (clock_gettime s).2
      with hs1
    have h1 : Untouched p s s1 := by
      rw [hs1]
      split
      · exact untouched_trans (untouched_gettime p s) (untouched_nanosleep p _ _)
      · exact untouched_gettime p s
    set s2 := readCycleStart nd.pinE (setStatusPins nd false true
      (pinMode (nd.pinDB 7) PinDir.input s1)) with hs2
    have h2 : Untouched p s s2 := by
      rw [hs2]
      refine untouched_trans h1 (untouched_trans (untouched_pinMode p _ _ _ hDB7)
        (untouched_trans (untouched_setStatusPins p nd false true _ hRS hRW)
          (untouched_readCycleStart p _ _ hE)))
    have h3 := untouched_busyPoll_4 p nd hE fuel s2
    rcases hr : busyPoll_4 nd fuel s2 with _ | s3
    · simp only [UntouchedOpt, hr]
    · rw [hr] at h3
      simp only [UntouchedOpt, hr]
      exact untouched_trans h2 (untouched_trans h3
        (untouched_trans (untouched_pinMode p _ _ _ hDB7)
          (untouched_trans (untouched_readCycleEnd p _ _ hE)
            (untouched_trans (untouched_readCycleStart p _ _ hE)
              (untouched_readCycleEnd p _ _ hE)))))



theorem untouched_write4 (p : Int) (node : wiringPiNodeStruct) (pin d : Int) (fuel : Nat)
    (s : Sim) (hE : node.dataStruct.pinE ≠ p) (hRS : node.dataStruct.pinRS ≠ p)
    (hRW : node.dataStruct.readEnabled = true → node.dataStruct.pinRW ≠ p)
    (hDB : ∀ i ∈ List.range' 4 4, node.dataStruct.pinDB i ≠ p) :
    UntouchedOpt p s ((hd44780DigitalWrite_4 node pin d fuel s).map Prod.snd) := by
  unfold hd44780DigitalWrite_4
  have hw := untouched_wait4 p node.dataStruct fuel s hE hRS hRW
    (hDB 7 (by simp [List.range']))
  rcases hr : waitWhileBusy_4 node.dataStruct fuel s with _ | s1
  · simp only [hr, Option.map_none]
    trivial
  · rw [hr] at hw
    simp only [hr, Option.map_some, UntouchedOpt]
    refine untouched_trans hw ?_
    refine untouched_trans (untouched_setStatusPins p node.dataStruct
      (decide (pin = node.pinBase)) false s1 hRS hRW) ?_
    refine untouched_trans (untouched_writeCycleStart p _ _ hE) ?_
    refine untouched_trans (untouched_foldl_digitalWrite p node.dataStruct.pinDB
      (fun i => decide ((d % 256).toNat >>> i &&& 1 = 1)) (List.range' 4 4) _ hDB) ?_
    refine untouched_trans (untouched_writeCycleEnd p _ _ hE) ?_
    refine untouched_trans (untouched_writeCycleStart p _ _ hE) ?_
    refine untouched_trans (untouched_foldl_digitalWrite p node.dataStruct.pinDB
      (fun i => decide ((d % 256).toNat >>> (i - 4) &&& 1 = 1)) (List.range' 4 4) _ hDB) ?_
    refine untouched_trans (untouched_writeCycleEnd p _ _ hE) ?_
    exact untouched_gettime p _

theorem untouched_sampleLines (p : Int) (nd : hd44780DataStruct) (lines : List Nat)
    (acc : Nat) (s : Sim) : Untouched p s (sampleLines nd lines acc s).2 := by
  induction lines generalizing acc s with
  | nil => exact untouched_refl p s
  | cons a t ih =>
      unfold sampleLines
      simp only [List.foldl_cons]
      have h1 := untouched_digitalRead p (nd.pinDB a) s
      have h2 := ih (acc * 2 + cond (digitalRead (nd.pinDB a) s).1 1 0)
        (digitalRead (nd.pinDB a) s).2
      unfold sampleLines at h2
      exact untouched_trans h1 h2

theorem untouched_read4 (p : Int) (node : wiringPiNodeStruct) (pin : Int) (fuel : Nat)
    (s : Sim) (hE : node.dataStruct.pinE ≠ p) (hRS : node.dataStruct.pinRS ≠ p)
    (hRW : node.dataStruct.readEnabled = true → node.dataStruct.pinRW ≠ p)
    (hDB : ∀ i ∈ List.range' 4 4, node.dataStruct.pinDB i ≠ p) :
    UntouchedOpt p s ((hd44780DigitalRead_4 node pin fuel s).map Prod.snd) := by
  unfold hd44780DigitalRead_4
  have hDB7 : node.dataStruct.pinDB 7 ≠ p := hDB 7 (by simp [List.range'])
  have h0 : Untouched p s ((List.range' 4 4).foldl
      (fun s i => pinMode (node.dataStruct.pinDB i) PinDir.input s) s) :=
    untouched_foldl_pinMode p _ _ _ _ hDB
  by_cases hp : pin = node.pinBase
  · simp only [if_pos hp]
    rcases hr : waitWhileBusy_4 node.dataStruct fuel ((List.range' 4 4).foldl
        (fun s i => pinMode (node.dataStruct.pinDB i) PinDir.input s) s) with _ | s1
    · simp only [hr, Option.map_none]
      trivial
    · have hw := untouched_wait4 p node.dataStruct fuel ((List.range' 4 4).foldl
        (fun s i => pinMode (node.dataStruct.pinDB i) PinDir.input s) s) hE hRS hRW hDB7
      rw [hr] at hw
      simp only [hr, Option.map_some, UntouchedOpt]
      refine untouched_trans ?_ (untouched_foldl_pinMode p _ _ _ _ hDB)
      refine untouched_trans ?_ (untouched_readCycleEnd p _ _ hE)
      refine untouched_trans ?_ (untouched_sampleLines p _ _ _ _)
      refine untouched_trans ?_ (untouched_readCycleStart p _ _ hE)
      refine untouched_trans ?_ (untouched_readCycleEnd p _ _ hE)
      refine untouched_trans ?_ (untouched_sampleLines p _ _ _ _)
      refine untouched_trans ?_ (untouched_readCycleStart p _ _ hE)
      refine untouched_trans ?_ (untouched_setStatusPins p _ _ _ _ hRS hRW)
      exact untouched_trans h0 hw
  · simp only [if_neg hp, Option.map_some, UntouchedOpt]
    refine untouched_trans ?_ (untouched_foldl_pinMode p _ _ _ _ hDB)
    refine untouched_trans ?_ (untouched_readCycleEnd p _ _ hE)
    refine untouched_trans ?_ (untouched_sampleLines p _ _ _ _)
    refine untouched_trans ?_ (untouched_readCycleStart p _ _ hE)
    refine untouched_trans ?_ (untouched_readCycleEnd p _ _ hE)
    refine untouched_trans ?_ (untouched_sampleLines p _ _ _ _)
    refine untouched_trans ?_ (untouched_readCycleStart p _ _ hE)
    refine untouched_trans ?_ (untouched_setStatusPins p _ _ _ _ hRS hRW)
    exact h0



theorem untouched_checkPin (p : Int) (n : String) (id : Int) (fs : Bool × Sim) :
    Untouched p fs.2 (checkPin n id fs).2 := by
  unfold checkPin
  split
  · exact ⟨[Ev.err n id], rfl, by simp [evTouches]⟩
  · exact untouched_refl p _

theorem untouched_msgEv (p : Int) (t : String) (s : Sim) :
    Untouched p s { s with trace := Ev.msg t :: s.trace } :=
  ⟨[Ev.msg t], rfl, by simp [evTouches]⟩

theorem untouched_newNodeEv (p : Int) (b : Int) (s : Sim) :
    Untouched p s { s with trace := Ev.newNode b :: s.trace } :=
  ⟨[Ev.newNode b], rfl, by simp [evTouches]⟩

theorem untouched_setupPin (p q : Int) (s : Sim) (h : q ≠ p) :
    Untouched p s (setupPin q s) :=
  untouched_trans (untouched_pull p q 2 s h)
    (untouched_trans (untouched_pinMode p q PinDir.output _ h)
      (untouched_digitalWrite p q false _ h))

theorem untouched_checkChain6 (p pinRS pinE d7 d6 d5 d4 : Int) (s : Sim) :
    Untouched p s (checkPin "pinDB4" d4 (checkPin "pinDB5" d5 (checkPin "pinDB6" d6
      (checkPin "pinDB7" d7 (checkPin "pinE" pinE (checkPin "pinRS" pinRS (false, s))))))).2 :=
  untouched_trans (untouched_checkPin p "pinRS" pinRS (false, s))
    (untouched_trans (untouched_checkPin p "pinE" pinE _)
    (untouched_trans (untouched_checkPin p "pinDB7" d7 _)
    (untouched_trans (untouched_checkPin p "pinDB6" d6 _)
    (untouched_trans (untouched_checkPin p "pinDB5" d5 _)
    (untouched_checkPin p "pinDB4" d4 _)))))

theorem untouched_checkChain7 (p pinRS pinRW pinE d7 d6 d5 d4 : Int) (s : Sim) :
    Untouched p s (checkPin "pinDB4" d4 (checkPin "pinDB5" d5 (checkPin "pinDB6" d6
      (checkPin "pinDB7" d7 (checkPin "pinE" pinE (checkPin "pinRW" pinRW
        (checkPin "pinRS" pinRS (false, s)))))))).2 :=
  untouched_trans (untouched_checkPin p "pinRS" pinRS (false, s))
    (untouched_trans (untouched_checkPin p "pinRW" pinRW _)
    (untouched_trans (untouched_checkPin p "pinE" pinE _)
    (untouched_trans (untouched_checkPin p "pinDB7" d7 _)
    (untouched_trans (untouched_checkPin p "pinDB6" d6 _)
    (untouched_trans (untouched_checkPin p "pinDB5" d5 _)
    (untouched_checkPin p "pinDB4" d4 _))))))

theorem untouched_checkBlock4 (p d3 d2 d1 d0 : Int) (fs : Bool × Sim) :
    Untouched p fs.2 (checkPin "pinDB0" d0 (checkPin "pinDB1" d1 (checkPin "pinDB2" d2
      (checkPin "pinDB3" d3 fs)))).2 :=
  untouched_trans (untouched_checkPin p "pinDB3" d3 fs)
    (untouched_trans (untouched_checkPin p "pinDB2" d2 _)
    (untouched_trans (untouched_checkPin p "pinDB1" d1 _)
    (untouched_checkPin p "pinDB0" d0 _)))

theorem untouched_setup (p pinBase : Int) (readEnabled mode8Enabled : Bool)
    (pinRS pinRW pinE pinDB7 pinDB6 pinDB5 pinDB4 pinDB3 pinDB2 pinDB1 pinDB0 : Int)
    (s : Sim) (hRS : pinRS ≠ p) (hRW : readEnabled = true → pinRW ≠ p) (hE : pinE ≠ p)
    (h7 : pinDB7 ≠ p) (h6 : pinDB6 ≠ p) (h5 : pinDB5 ≠ p) (h4 : pinDB4 ≠ p)
    (h3 : pinDB3 ≠ p) (h2 : pinDB2 ≠ p) (h1 : pinDB1 ≠ p) (h0 : pinDB0 ≠ p) :
    Untouched p s (hd44780Setup pinBase readEnabled mode8Enabled pinRS pinRW pinE pinDB7
      pinDB6 pinDB5 pinDB4 pinDB3 pinDB2 pinDB1 pinDB0 s).2 := by
  unfold hd44780Setup
  cases hre : readEnabled <;> cases hm8 : mode8Enabled <;>
    simp only [Bool.false_eq_true, if_false, eq_self_iff_true, if_true]
  · have hcc := untouched_checkChain6 p pinRS pinE pinDB7 pinDB6 pinDB5 pinDB4 s
    split
    · exact untouched_trans hcc (untouched_msgEv p _ _)
    · split
      · exact untouched_trans hcc (untouched_msgEv p _ _)
      · split
        · exact untouched_trans (untouched_trans hcc (untouched_newNodeEv p pinBase _))
            (untouched_msgEv p _ _)
        · refine untouched_trans ?_ (untouched_delayUs p 37 _)
          refine untouched_trans ?_ (untouched_digitalWrite p _ false _ h5)
          refine untouched_trans ?_ (untouched_writeCycleEnd p _ _ hE)
          refine untouched_trans ?_ (untouched_digitalWrite p _ true _ h5)
          refine untouched_trans ?_ (untouched_writeCycleStart p _ _ hE)
          refine untouched_trans ?_ (untouched_setupPin p _ _ h4)
          refine untouched_trans ?_ (untouched_setupPin p _ _ h5)
          refine untouched_trans ?_ (untouched_setupPin p _ _ h6)
          refine untouched_trans ?_ (untouched_setupPin p _ _ h7)
          refine untouched_trans ?_ (untouched_setupPin p _ _ hE)
          refine untouched_trans ?_ (untouched_setupPin p _ _ hRS)
          exact untouched_trans hcc (untouched_newNodeEv p pinBase _)

  · have hcc := untouched_trans (untouched_checkChain6 p pinRS pinE pinDB7 pinDB6 pinDB5 pinDB4 s)
        (untouched_checkBlock4 p pinDB3 pinDB2 pinDB1 pinDB0 _)
    split
    · exact untouched_trans hcc (untouched_msgEv p _ _)
    · split
      · exact untouched_trans hcc (untouched_msgEv p _ _)
      · split
        · exact untouched_trans (untouched_trans hcc (untouched_newNodeEv p pinBase _))
            (untouched_msgEv p _ _)
        · refine untouched_trans ?_ (untouched_setupPin p _ _ h0)
          refine untouched_trans ?_ (untouched_setupPin p _ _ h1)
          refine untouched_trans ?_ (untouched_setupPin p _ _ h2)
          refine untouched_trans ?_ (untouched_setupPin p _ _ h3)
          refine untouched_trans ?_ (untouched_setupPin p _ _ h4)
          refine untouched_trans ?_ (untouched_setupPin p _ _ h5)
          refine untouched_trans ?_ (untouched_setupPin p _ _ h6)
          refine untouched_trans ?_ (untouched_setupPin p _ _ h7)
          refine untouched_trans ?_ (untouched_setupPin p _ _ hE)
          refine untouched_trans ?_ (untouched_setupPin p _ _ hRS)
          exact untouched_trans hcc (untouched_newNodeEv p pinBase _)

  · have hcc := untouched_checkChain7 p pinRS pinRW pinE pinDB7 pinDB6 pinDB5 pinDB4 s
    split
    · exact untouched_trans hcc (untouched_msgEv p _ _)
    · split
      · exact untouched_trans hcc (untouched_msgEv p _ _)
      · split
        · exact untouched_trans (untouched_trans hcc (untouched_newNodeEv p pinBase _))
            (untouched_msgEv p _ _)
        · refine untouched_trans ?_ (untouched_delayUs p 37 _)
          refine untouched_trans ?_ (untouched_digitalWrite p _ false _ h5)
          refine untouched_trans ?_ (untouched_writeCycleEnd p _ _ hE)
          refine untouched_trans ?_ (untouched_digitalWrite p _ true _ h5)
          refine untouched_trans ?_ (untouched_writeCycleStart p _ _ hE)
          refine untouched_trans ?_ (untouched_setupPin p _ _ h4)
          refine untouched_trans ?_ (untouched_setupPin p _ _ h5)
          refine untouched_trans ?_ (untouched_setupPin p _ _ h6)
          refine untouched_trans ?_ (untouched_setupPin p _ _ h7)
          refine untouched_trans ?_ (untouched_setupPin p _ _ hE)
          refine untouched_trans ?_ (untouched_setupPin p _ _ (hRW hre))
          refine untouched_trans ?_ (untouched_setupPin p _ _ hRS)
          exact untouched_trans hcc (untouched_newNodeEv p pinBase _)

  · have hcc := untouched_trans (untouched_checkChain7 p pinRS pinRW pinE pinDB7 pinDB6 pinDB5 pinDB4 s)
        (untouched_checkBlock4 p pinDB3 pinDB2 pinDB1 pinDB0 _)
    split
    · exact untouched_trans hcc (untouched_msgEv p _ _)
    · split
      · exact untouched_trans hcc (untouched_msgEv p _ _)
      · split
        · exact untouched_trans (untouched_trans hcc (untouched_newNodeEv p pinBase _))
            (untouched_msgEv p _ _)
        · refine untouched_trans ?_ (untouched_setupPin p _ _ h0)
          refine untouched_trans ?_ (untouched_setupPin p _ _ h1)
          refine untouched_trans ?_ (untouched_setupPin p _ _ h2)
          refine untouched_trans ?_ (untouched_setupPin p _ _ h3)
          refine untouched_trans ?_ (untouched_setupPin p _ _ h4)
          refine untouched_trans ?_ (untouched_setupPin p _ _ h5)
          refine untouched_trans ?_ (untouched_setupPin p _ _ h6)
          refine untouched_trans ?_ (untouched_setupPin p _ _ h7)
          refine untouched_trans ?_ (untouched_setupPin p _ _ hE)
          refine untouched_trans ?_ (untouched_setupPin p _ _ (hRW hre))
          refine untouched_trans ?_ (untouched_setupPin p _ _ hRS)
          exact untouched_trans hcc (untouched_newNodeEv p pinBase _)



theorem untouched_wait8 (p : Int) (nd : hd44780DataStruct) (fuel : Nat) (s : Sim)
    (hE : nd.pinE ≠ p) (hRS : nd.pinRS ≠ p) (hRW : nd.readEnabled = true → nd.pinRW ≠ p)
    (hDB7 : nd.pinDB 7 ≠ p) : UntouchedOpt p s (waitWhileBusy_8 nd fuel s) := by
  unfold waitWhileBusy_8
  cases hre : nd.readEnabled
  · simp only [Bool.false_eq_true, if_false]
    exact untouched_waitReadDisabled p nd fuel s
  · simp only [if_true]
    set s1 := if farFromDeadline nd.operation_end (clock_gettime s).1 then
      (clock_nanosleep_abs nd.operation_end (clock_gettime s).2).2 else (clock_gettime s).2
      with hs1
    have h1 : Untouched p s s1 := by
      rw [hs1]
      split
      · exact untouched_trans (untouched_gettime p s) (untouched_nanosleep p _ _)
      · exact untouched_gettime p s
    set s2 := readCycleStart nd.pinE (setStatusPins nd false true
      (pinMode (nd.pinDB 7) PinDir.input s1)) with hs2
    have h2 : Untouched p s s2 := by
      rw [hs2]
      refine untouched_trans h1 (untouched_trans (untouched_pinMode p _ _ _ hDB7)
        (untouched_trans (untouched_setStatusPins p nd false true _ hRS hRW)
          (untouched_readCycleStart p _ _ hE)))
    have h3 := untouched_busyPoll_8 p nd hE fuel s2
    rcases hr : busyPoll_8 nd fuel s2 with _ | s3
    · simp only [UntouchedOpt, hr]
    · rw [hr] at h3
      simp only [UntouchedOpt, hr]
      exact untouched_trans h2 (untouched_trans h3
        (untouched_trans (untouched_pinMode p _ _ _ hDB7)
          (untouched_readCycleEnd p _ _ hE)))

theorem range4_subset_range8 (nd : hd44780DataStruct) (p : Int)
    (hDB : ∀ i ∈ List.range 8, nd.pinDB i ≠ p) :
    ∀ i ∈ List.range' 4 4, nd.pinDB i ≠ p := by
  intro i hi
  refine hDB i ?_
  simp only [List.mem_range'_1] at hi
  simp only [List.mem_range]
  omega

theorem untouched_write8 (p : Int) (node : wiringPiNodeStruct) (pin d : Int) (fuel : Nat)
    (s : Sim) (hE : node.dataStruct.pinE ≠ p) (hRS : node.dataStruct.pinRS ≠ p)
    (hRW : node.dataStruct.readEnabled = true → node.dataStruct.pinRW ≠ p)
    (hDB : ∀ i ∈ List.range 8, node.dataStruct.pinDB i ≠ p) :
    UntouchedOpt p s ((hd44780DigitalWrite_8 node pin d fuel s).map Prod.snd) := by
  unfold hd44780DigitalWrite_8
  have hDB4 := range4_subset_range8 node.dataStruct p hDB
  have hDB7 : node.dataStruct.pinDB 7 ≠ p := hDB 7 (by simp)
  cases hm : node.dataStruct.mode8
  · simp only [hm]
    by_cases hc : (decide (pin = node.pinBase) = false ∧ (d % 256).toNat &&& 0xF0 = 0x30)
    · simp only [if_pos hc]
      exact untouched_write4 p _ pin _ fuel s hE hRS hRW hDB4
    · simp only [if_neg hc]
      exact untouched_write4 p _ pin _ fuel s hE hRS hRW hDB4
  · simp only [hm]
    by_cases hc : (decide (pin = node.pinBase) = false ∧ (d % 256).toNat &&& 0xF0 = 0x20)
    · simp only [if_pos hc]
      have hw := untouched_wait8 p { node.dataStruct with mode8 := false } fuel s
        hE hRS hRW hDB7
      rcases hr : waitWhileBusy_8 { node.dataStruct with mode8 := false } fuel s with _ | s1
      · simp only [hr, Option.map_none]
        trivial
      · rw [hr] at hw
        simp only [hr, Option.map_some, UntouchedOpt]
        refine untouched_trans hw ?_
        refine untouched_trans (untouched_setStatusPins p _
          (decide (pin = node.pinBase)) false s1 hRS hRW) ?_
        refine untouched_trans (untouched_writeCycleStart p _ _ hE) ?_
        refine untouched_trans (untouched_foldl_digitalWrite p node.dataStruct.pinDB
          (fun i => decide ((d % 256).toNat >>> i &&& 1 = 1)) (List.range 8) _ hDB) ?_
        refine untouched_trans (untouched_writeCycleEnd p _ _ hE) ?_
        exact untouched_gettime p _
    · simp only [if_neg hc]
      have hw := untouched_wait8 p node.dataStruct fuel s hE hRS hRW hDB7
      rcases hr : waitWhileBusy_8 node.dataStruct fuel s with _ | s1
      · simp only [hr, Option.map_none]
        trivial
      · rw [hr] at hw
        simp only [hr, Option.map_some, UntouchedOpt]
        refine untouched_trans hw ?_
        refine untouched_trans (untouched_setStatusPins p _
          (decide (pin = node.pinBase)) false s1 hRS hRW) ?_
        refine untouched_trans (untouched_writeCycleStart p _ _ hE) ?_
        refine untouched_trans (untouched_foldl_digitalWrite p node.dataStruct.pinDB
          (fun i => decide ((d % 256).toNat >>> i &&& 1 = 1)) (List.range 8) _ hDB) ?_
        refine untouched_trans (untouched_writeCycleEnd p _ _ hE) ?_
        exact untouched_gettime p _

theorem untouched_read8 (p : Int) (node : wiringPiNodeStruct) (pin : Int) (fuel : Nat)
    (s : Sim) (hE : node.dataStruct.pinE ≠ p) (hRS : node.dataStruct.pinRS ≠ p)
    (hRW : node.dataStruct.readEnabled = true → node.dataStruct.pinRW ≠ p)
    (hDB : ∀ i ∈ List.range 8, node.dataStruct.pinDB i ≠ p) :
    UntouchedOpt p s ((hd44780DigitalRead_8 node pin fuel s).map Prod.snd) := by
  unfold hd44780DigitalRead_8
  have hDB4 := range4_subset_range8 node.dataStruct p hDB
  have hDB7 : node.dataStruct.pinDB 7 ≠ p := hDB 7 (by simp)
  cases hm : node.dataStruct.mode8
  · simp only [hm]
    exact untouched_read4 p node pin fuel s hE hRS hRW hDB4
  · simp only [hm]
    by_cases hp : pin = node.pinBase
    · simp only [if_pos hp]
      rcases hr : waitWhileBusy_8 node.dataStruct fuel s with _ | s1
      · simp only [hr, Option.map_none]
        trivial
      · have hw := untouched_wait8 p node.dataStruct fuel s hE hRS hRW hDB7
        rw [hr] at hw
        simp only [hr, Option.map_some, UntouchedOpt]
        refine untouched_trans ?_ (untouched_foldl_pinMode p _ _ _ _ hDB)
        refine untouched_trans ?_ (untouched_readCycleEnd p _ _ hE)
        refine untouched_trans ?_ (untouched_sampleLines p _ _ _ _)
        refine untouched_trans ?_ (untouched_readCycleStart p _ _ hE)
        refine untouched_trans ?_ (untouched_foldl_pinMode p _ _ _ _ hDB)
        refine untouched_trans ?_ (untouched_setStatusPins p _ _ _ _ hRS hRW)
        exact hw
    · simp only [if_neg hp, Option.map_some, UntouchedOpt]
      refine untouched_trans ?_ (untouched_foldl_pinMode p _ _ _ _ hDB)
      refine untouched_trans ?_ (untouched_readCycleEnd p _ _ hE)
      refine untouched_trans ?_ (untouched_sampleLines p _ _ _ _)
      refine untouched_trans ?_ (untouched_readCycleStart p _ _ hE)
      refine untouched_trans ?_ (untouched_foldl_pinMode p _ _ _ _ hDB)
      refine untouched_trans ?_ (untouched_setStatusPins p _ _ _ _ hRS hRW)
      exact untouched_refl p s

/-- C7: frame conditions on capability-gated pins, for every operation.
(1) With read capability unset, neither the 4-bit write handler, nor the
4-bit read handler, nor the 4-bit busy-wait ever writes, reconfigures or
pulls the read/write-control pin (given distinct wiring).  (2) The same
for the 8-bit write handler, the 8-bit read handler and the 8-bit
busy-wait, covering every handler installable on a read-disabled node.
(3) For any data line of index 0-3, the 4-bit write and read paths and
the 4-bit busy-wait never write, reconfigure or pull it, whatever the
read capability.  (4) A setup with read capability unset never configures
or toggles the read/write-control pin. -/
theorem C7_capability_frame_conditions :
    (∀ (node : wiringPiNodeStruct) (pin d : Int) (fuel : Nat) (s : Sim),
      node.dataStruct.readEnabled = false →
      node.dataStruct.pinRS ≠ node.dataStruct.pinRW →
      node.dataStruct.pinE ≠ node.dataStruct.pinRW →
      (∀ i ∈ List.range' 4 4, node.dataStruct.pinDB i ≠ node.dataStruct.pinRW) →
      UntouchedOpt node.dataStruct.pinRW s
        ((hd44780DigitalWrite_4 node pin d fuel s).map Prod.snd) ∧
      UntouchedOpt node.dataStruct.pinRW s
        ((hd44780DigitalRead_4 node pin fuel s).map Prod.snd) ∧
      UntouchedOpt node.dataStruct.pinRW s (waitWhileBusy_4 node.dataStruct fuel s)) ∧
    (∀ (node : wiringPiNodeStruct) (pin d : Int) (fuel : Nat) (s : Sim),
      node.dataStruct.readEnabled = false →
      node.dataStruct.pinRS ≠ node.dataStruct.pinRW →
      node.dataStruct.pinE ≠ node.dataStruct.pinRW →
      (∀ i ∈ List.range 8, node.dataStruct.pinDB i ≠ node.dataStruct.pinRW) →
      UntouchedOpt node.dataStruct.pinRW s
        ((hd44780DigitalWrite_8 node pin d fuel s).map Prod.snd) ∧
      UntouchedOpt node.dataStruct.pinRW s
        ((hd44780DigitalRead_8 node pin fuel s).map Prod.snd) ∧
      UntouchedOpt node.dataStruct.pinRW s (waitWhileBusy_8 node.dataStruct fuel s)) ∧
    (∀ (node : wiringPiNodeStruct) (pin d : Int) (fuel : Nat) (s : Sim) (j : Nat),
      j < 4 →
      node.dataStruct.pinRS ≠ node.dataStruct.pinDB j →
      node.dataStruct.pinRW ≠ node.dataStruct.pinDB j →
      node.dataStruct.pinE ≠ node.dataStruct.pinDB j →
      (∀ i ∈ List.range' 4 4, node.dataStruct.pinDB i ≠ node.dataStruct.pinDB j) →
      UntouchedOpt (node.dataStruct.pinDB j) s
        ((hd44780DigitalWrite_4 node pin d fuel s).map Prod.snd) ∧
      UntouchedOpt (node.dataStruct.pinDB j) s
        ((hd44780DigitalRead_4 node pin fuel s).map Prod.snd) ∧
      UntouchedOpt (node.dataStruct.pinDB j) s (waitWhileBusy_4 node.dataStruct fuel s)) ∧
    (∀ (pinBase : Int) (mode8Enabled : Bool)
      (pinRS pinRW pinE d7 d6 d5 d4 d3 d2 d1 d0 : Int) (s : Sim),
      pinRS ≠ pinRW → pinE ≠ pinRW → d7 ≠ pinRW → d6 ≠ pinRW → d5 ≠ pinRW → d4 ≠ pinRW →
      d3 ≠ pinRW → d2 ≠ pinRW → d1 ≠ pinRW → d0 ≠ pinRW →
      Untouched pinRW s (hd44780Setup pinBase false mode8Enabled pinRS pinRW pinE
        d7 d6 d5 d4 d3 d2 d1 d0 s).2) := by
  refine ⟨?_, ?_, ?_, ?_⟩
  · intro node pin d fuel s hre hRS hE hDB
    have hRW : node.dataStruct.readEnabled = true →
        node.dataStruct.pinRW ≠ node.dataStruct.pinRW :=
      fun h => Bool.noConfusion (hre ▸ h)
    exact ⟨untouched_write4 _ node pin d fuel s hE hRS hRW hDB,
      untouched_read4 _ node pin fuel s hE hRS hRW hDB,
      untouched_wait4 _ node.dataStruct fuel s hE hRS hRW (hDB 7 (by simp [List.range']))⟩
  · intro node pin d fuel s hre hRS hE hDB
    have hRW : node.dataStruct.readEnabled = true →
        node.dataStruct.pinRW ≠ node.dataStruct.pinRW :=
      fun h => Bool.noConfusion (hre ▸ h)
    exact ⟨untouched_write8 _ node pin d fuel s hE hRS hRW hDB,
      untouched_read8 _ node pin fuel s hE hRS hRW hDB,
      untouched_wait8 _ node.dataStruct fuel s hE hRS hRW (hDB 7 (by simp))⟩
  · intro node pin d fuel s j _hj hRS hRW hE hDB
    exact ⟨untouched_write4 _ node pin d fuel s hE hRS (fun _ => hRW) hDB,
      untouched_read4 _ node pin fuel s hE hRS (fun _ => hRW) hDB,
      untouched_wait4 _ node.dataStruct fuel s hE hRS (fun _ => hRW)
        (hDB 7 (by simp [List.range']))⟩
  · intro pinBase m8 pinRS pinRW pinE d7 d6 d5 d4 d3 d2 d1 d0 s hRS hE k7 k6 k5 k4 k3 k2 k1 k0
    exact untouched_setup pinRW pinBase false m8 pinRS pinRW pinE d7 d6 d5 d4 d3 d2 d1 d0 s
      hRS (fun h => Bool.noConfusion h) hE k7 k6 k5 k4 k3 k2 k1 k0


/-- C7 witness: the frame conditions applied to concrete runs on the
simulated wiring. -/
theorem C7_witness :
    ((10 : Int) ≠ 11 ∧ (6 : Int) ≠ 11 ∧ (26 : Int) ≠ 11) ∧
    (UntouchedOpt 11 simInit
        ((hd44780DigitalWrite_4 { node4R with dataStruct := { nd4R with readEnabled := false } }
          64 5 2 simInit).map Prod.snd) ∧
      UntouchedOpt 11 simInit
        ((hd44780DigitalWrite_8 (node8W true) 64 65 2 simInit).map Prod.snd) ∧
      UntouchedOpt 11 simInit ((hd44780DigitalRead_8 (node8W true) 65 2 simInit).map Prod.snd) ∧
      UntouchedOpt 11 simInit (waitWhileBusy_8 (nd8W true) 2 simInit) ∧
      UntouchedOpt 19 simInit ((hd44780DigitalRead_4 node4R 65 2 simInit).map Prod.snd) ∧
      Untouched 11 simInit
        (hd44780Setup 64 false false 10 11 6 26 25 24 23 22 21 20 19 simInit).2) :=
  ⟨⟨by decide, by decide, by decide⟩,
    (C7_capability_frame_conditions.1
      { node4R with dataStruct := { nd4R with readEnabled := false } } 64 5 2 simInit rfl
      (by decide) (by decide) (by decide)).1,
    (C7_capability_frame_conditions.2.1 (node8W true) 64 65 2 simInit rfl
      (by decide) (by decide) (by decide)).1,
    (C7_capability_frame_conditions.2.1 (node8W true) 65 0 2 simInit rfl
      (by decide) (by decide) (by decide)).2.1,
    (C7_capability_frame_conditions.2.1 (node8W true) 64 0 2 simInit rfl
      (by decide) (by decide) (by decide)).2.2,
    (C7_capability_frame_conditions.2.2.1 node4R 65 0 2 simInit 0 (by decide) (by decide)
      (by decide) (by decide) (by decide)).2.1,
    C7_capability_frame_conditions.2.2.2 64 false 10 11 6 26 25 24 23 22 21 20 19 simInit
      (by decide) (by decide) (by decide) (by decide) (by decide) (by decide) (by decide)
      (by decide) (by decide) (by decide)⟩

/-!  The 4-bit busy-wait, on the simulated device: exact strobe accounting. -/

/-- Observing the busy line while the device presents the status byte:
high exactly while the busy countdown is positive, consuming one poll. -/
theorem digitalRead_DB7_busy (s : Sim) (hdir : s.dir simPinDB7 = PinDir.input)
    (hE : s.level simPinE = true) (hRW : s.level simPinRW = true)
    (hRS : s.level simPinRS = false) (hph : s.wphase = false) :
    digitalRead simPinDB7 s =
      (decide (s.busyReads ≠ 0),
        { s with trace := Ev.readEv simPinDB7 (decide (s.busyReads ≠ 0)) :: s.trace,
                 busyReads := s.busyReads - 1 }) := by
  simp only [simPinDB7, simPinE, simPinRW, simPinRS] at hdir hE hRW hRS
  by_cases hbz : s.busyReads = 0 <;>
    simp [digitalRead, deviceDrives, devicePresentedNibble, devicePresentedByte, dbBitIndex,
      simPinDB7, simPinDB6, simPinDB5, simPinDB4, simPinE, simPinRW, simPinRS,
      hdir, hE, hRW, hRS, hph, hbz]
  rfl

theorem rcStart_state (s : Sim) :
    (readCycleStart simPinE s).level simPinE = true ∧
    (readCycleStart simPinE s).level simPinRW = s.level simPinRW ∧
    (readCycleStart simPinE s).level simPinRS = s.level simPinRS ∧
    (readCycleStart simPinE s).dir = s.dir ∧
    (readCycleStart simPinE s).wphase = s.wphase ∧
    (readCycleStart simPinE s).busyReads = s.busyReads ∧
    (readCycleStart simPinE s).trace =
      [Ev.delayNs 300, Ev.write simPinE true] ++ s.trace := by
  simp [readCycleStart, digitalWrite, delayNanoseconds, enable_duration,
    simPinE, simPinRW, simPinRS]

theorem rcEnd_state (s : Sim) (hE : s.level simPinE = true)
    (hRW : s.level simPinRW = true) :
    (readCycleEnd simPinE s).level simPinE = false ∧
    (readCycleEnd simPinE s).level simPinRW = s.level simPinRW ∧
    (readCycleEnd simPinE s).level simPinRS = s.level simPinRS ∧
    (readCycleEnd simPinE s).dir = s.dir ∧
    (readCycleEnd simPinE s).wphase = !s.wphase ∧
    (readCycleEnd simPinE s).busyReads = s.busyReads ∧
    (readCycleEnd simPinE s).trace =
      [Ev.delayNs 300, Ev.write simPinE false] ++ s.trace := by
  simp only [simPinE, simPinRW] at hE hRW
  simp [readCycleEnd, digitalWrite, deviceOnEFall, delayNanoseconds, enable_duration,
    simPinE, simPinRW, simPinRS, hE, hRW]



theorem busyPoll4_sim : ∀ (k : Nat), ∀ (fuel : Nat) (s : Sim), k < fuel → s.busyReads = k →
    s.level simPinE = true → s.level simPinRW = true → s.level simPinRS = false →
    s.dir simPinDB7 = PinDir.input → s.wphase = false →
    ∃ s' lt, busyPoll_4 nd4R fuel s = some s' ∧
      s'.trace = (Ev.readEv simPinDB7 false :: lt) ++ s.trace ∧
      lt.count (Ev.write simPinE true) = 2 * k ∧
      lt.count (Ev.write simPinE false) = 2 * k ∧
      lt.count (Ev.readEv simPinDB7 true) = k ∧
      lt.count (Ev.readEv simPinDB7 false) = 0 ∧
      s'.level simPinE = true ∧ s'.level simPinRW = true ∧ s'.level simPinRS = false ∧
      s'.dir simPinDB7 = PinDir.input ∧ s'.wphase = false := by
  intro k
  induction k with
  | zero =>
      intro fuel s hf hk hE hRW hRS hdir hph
      cases fuel with
      | zero => omega
      | succ f =>
          unfold busyPoll_4
          rw [show nd4R.pinDB 7 = simPinDB7 from rfl,
            digitalRead_DB7_busy s hdir hE hRW hRS hph, hk]
          simp only [ne_eq, decide_not, decide_eq_true_eq, not_true_eq_false,
            decide_eq_false_iff_not, Bool.not_true, Bool.false_eq_true, if_false]
          exact ⟨_, [], rfl, rfl, rfl, rfl, rfl, rfl, hE, hRW, hRS, hdir, hph⟩
  | succ n ih =>
      intro fuel s hf hk hE hRW hRS hdir hph
      cases fuel with
      | zero => omega
      | succ f =>
          unfold busyPoll_4
          rw [show nd4R.pinDB 7 = simPinDB7 from rfl,
            digitalRead_DB7_busy s hdir hE hRW hRS hph, hk,
            show nd4R.pinE = simPinE from rfl]
          simp only [ne_eq, Nat.succ_ne_zero, not_false_eq_true, decide_True, if_true,
            Nat.succ_sub_one]
          obtain ⟨a1, a2, a3, a4, a5, a6, a7⟩ := rcEnd_state
            { s with trace := Ev.readEv simPinDB7 true :: s.trace, busyReads := n } hE hRW
          obtain ⟨b1, b2, b3, b4, b5, b6, b7⟩ := rcStart_state
            (readCycleEnd simPinE
              { s with trace := Ev.readEv simPinDB7 true :: s.trace, busyReads := n })
          obtain ⟨c1, c2, c3, c4, c5, c6, c7⟩ := rcEnd_state
            (readCycleStart simPinE (readCycleEnd simPinE
              { s with trace := Ev.readEv simPinDB7 true :: s.trace, busyReads := n }))
            b1 (by rw [b2, a2]; exact hRW)
          obtain ⟨d1, d2, d3, d4, d5, d6, d7⟩ := rcStart_state
            (readCycleEnd simPinE (readCycleStart simPinE (readCycleEnd simPinE
              { s with trace := Ev.readEv simPinDB7 true :: s.trace, busyReads := n })))
          obtain ⟨s', lt', hrun, htrace, hc1, hc2, hc3, hc4, l1, l2, l3, l4, l5⟩ :=
            ih f _ (by omega)
              (by rw [d6, c6, b6, a6])
              d1
              (by rw [d2, c2, b2, a2]; exact hRW)
              (by rw [d3, c3, b3, a3]; exact hRS)
              (by rw [d4, c4, b4, a4]; exact hdir)
              (by rw [d5, c5, b5, a5, hph]; rfl)
          refine ⟨s', lt' ++ ([Ev.delayNs 300, Ev.write simPinE true, Ev.delayNs 300,
            Ev.write simPinE false, Ev.delayNs 300, Ev.write simPinE true, Ev.delayNs 300,
            Ev.write simPinE false, Ev.readEv simPinDB7 true]), hrun, ?_, ?_, ?_, ?_, ?_,
            l1, l2, l3, l4, l5⟩
          · rw [htrace, d7, c7, b7, a7]
            simp [List.append_assoc]
          · simp only [List.count_append, hc1]
            rw [show ([Ev.delayNs 300, Ev.write simPinE true, Ev.delayNs 300,
              Ev.write simPinE false, Ev.delayNs 300, Ev.write simPinE true, Ev.delayNs 300,
              Ev.write simPinE false, Ev.readEv simPinDB7 true]).count (Ev.write simPinE true)
              = 2 from by decide]
            omega
          · simp only [List.count_append, hc2]
            rw [show ([Ev.delayNs 300, Ev.write simPinE true, Ev.delayNs 300,
              Ev.write simPinE false, Ev.delayNs 300, Ev.write simPinE true, Ev.delayNs 300,
              Ev.write simPinE false, Ev.readEv simPinDB7 true]).count (Ev.write simPinE false)
              = 2 from by decide]
            omega
          · simp only [List.count_append, hc3]
            rw [show ([Ev.delayNs 300, Ev.write simPinE true, Ev.delayNs 300,
              Ev.write simPinE false, Ev.delayNs 300, Ev.write simPinE true, Ev.delayNs 300,
              Ev.write simPinE false, Ev.readEv simPinDB7 true]).count (Ev.readEv simPinDB7 true)
              = 1 from by decide]
          · simp only [List.count_append, hc4]
            rw [show ([Ev.delayNs 300, Ev.write simPinE true, Ev.delayNs 300,
              Ev.write simPinE false, Ev.delayNs 300, Ev.write simPinE true, Ev.delayNs 300,
              Ev.write simPinE false, Ev.readEv simPinDB7 true]).count (Ev.readEv simPinDB7 false)
              = 0 from by decide]



theorem farFromDeadline_zero (t : Int) (ht : 0 ≤ t) :
    farFromDeadline ⟨0, 0⟩ (nsToTimespec t) = false := by
  unfold farFromDeadline nsToTimespec
  have hd := Int.ediv_add_emod t 1000000000
  have hm1 := Int.emod_nonneg t (by norm_num : (1000000000 : Int) ≠ 0)
  simp only [decide_eq_false_iff_not, not_lt]
  omega

theorem wait4_entry_state (s : Sim) :
    (readCycleStart simPinE (setStatusPins nd4R false true
      (pinMode simPinDB7 PinDir.input (clock_gettime s).2))).level simPinE = true ∧
    (readCycleStart simPinE (setStatusPins nd4R false true
      (pinMode simPinDB7 PinDir.input (clock_gettime s).2))).level simPinRW = true ∧
    (readCycleStart simPinE (setStatusPins nd4R false true
      (pinMode simPinDB7 PinDir.input (clock_gettime s).2))).level simPinRS = false ∧
    (readCycleStart simPinE (setStatusPins nd4R false true
      (pinMode simPinDB7 PinDir.input (clock_gettime s).2))).dir simPinDB7 = PinDir.input ∧
    (readCycleStart simPinE (setStatusPins nd4R false true
      (pinMode simPinDB7 PinDir.input (clock_gettime s).2))).wphase = s.wphase ∧
    (readCycleStart simPinE (setStatusPins nd4R false true
      (pinMode simPinDB7 PinDir.input (clock_gettime s).2))).busyReads = s.busyReads ∧
    (readCycleStart simPinE (setStatusPins nd4R false true
      (pinMode simPinDB7 PinDir.input (clock_gettime s).2))).trace =
      [Ev.delayNs 300, Ev.write simPinE true, Ev.delayNs 50, Ev.write simPinRW true,
        Ev.write simPinRS false, Ev.modeSet simPinDB7 PinDir.input,
        Ev.gettime (nsToTimespec s.time)] ++ s.trace := by
  simp [readCycleStart, setStatusPins, pinMode, clock_gettime, digitalWrite, deviceOnEFall,
    delayNanoseconds, enable_duration, nd4R, simPinDBArr, mkPinDB,
    simPinE, simPinRW, simPinRS, simPinDB7]

theorem wait4_post_state (s : Sim) (hE : s.level simPinE = true)
    (hRW : s.level simPinRW = true) :
    (readCycleEnd simPinE (readCycleStart simPinE (readCycleEnd simPinE
      (pinMode simPinDB7 PinDir.output s)))).wphase = s.wphase ∧
    (readCycleEnd simPinE (readCycleStart simPinE (readCycleEnd simPinE
      (pinMode simPinDB7 PinDir.output s)))).trace =
      [Ev.delayNs 300, Ev.write simPinE false, Ev.delayNs 300, Ev.write simPinE true,
        Ev.delayNs 300, Ev.write simPinE false, Ev.modeSet simPinDB7 PinDir.output] ++
        s.trace := by
  simp only [simPinE, simPinRW] at hE hRW
  simp [readCycleEnd, readCycleStart, pinMode, digitalWrite, deviceOnEFall,
    delayNanoseconds, enable_duration, simPinE, simPinRW, simPinRS, simPinDB7, hE, hRW]



/-- C8: the read-capable 4-bit busy wait, run against the simulated bus
with `k` pending busy polls.  It terminates; before the poll that reads
the busy line low there are `2k + 1` enable rising edges (the entry strobe
plus two full cycles per busy poll, each poll being a full two-cycle
transfer with the second nibble discarded); after the low read the wait
performs exactly one more falling edge (completing the in-progress cycle)
plus one full dummy strobe cycle (one rising, one more falling edge) and
no further busy reads before returning; and the device nibble phase ends
where it started, aligned for the next transfer. -/
theorem C8_busy_wait_4bit_one_extra_cycle (k fuel : Nat) (s : Sim) (hfuel : k < fuel) (hk : s.busyReads = k)
    (hph : s.wphase = false) (ht : 0 ≤ s.time) :
    ∃ s' post pre,
      waitWhileBusy_4 nd4R fuel s = some s' ∧
      s'.trace = post ++ Ev.readEv simPinDB7 false :: pre ++ s.trace ∧
      post.count (Ev.write simPinE true) = 1 ∧
      post.count (Ev.write simPinE false) = 2 ∧
      post.count (Ev.readEv simPinDB7 true) = 0 ∧
      post.count (Ev.readEv simPinDB7 false) = 0 ∧
      pre.count (Ev.write simPinE true) = 2 * k + 1 ∧
      pre.count (Ev.write simPinE false) = 2 * k ∧
      pre.count (Ev.readEv simPinDB7 true) = k ∧
      pre.count (Ev.readEv simPinDB7 false) = 0 ∧
      s'.wphase = false := by
  unfold waitWhileBusy_4
  rw [if_pos (show nd4R.readEnabled = true from rfl)]
  simp only [show nd4R.operation_end = (⟨0, 0⟩ : Timespec) from rfl, clock_gettime_fst,
    farFromDeadline_zero s.time ht, Bool.false_eq_true, if_false,
    show nd4R.pinDB 7 = simPinDB7 from rfl, show nd4R.pinE = simPinE from rfl]
  obtain ⟨e1, e2, e3, e4, e5, e6, e7⟩ := wait4_entry_state s
  obtain ⟨s1, lt, hrun, htr, p1, p2, p3, p4, q1, q2, q3, q4, q5⟩ :=
    busyPoll4_sim k fuel _ hfuel (by rw [e6, hk]) e1 e2 e3 e4 (by rw [e5, hph])
  rw [hrun]
  obtain ⟨f1, f2⟩ := wait4_post_state s1 q1 q2
  refine ⟨_,
    [Ev.delayNs 300, Ev.write simPinE false, Ev.delayNs 300, Ev.write simPinE true,
      Ev.delayNs 300, Ev.write simPinE false, Ev.modeSet simPinDB7 PinDir.output],
    lt ++ [Ev.delayNs 300, Ev.write simPinE true, Ev.delayNs 50, Ev.write simPinRW true,
      Ev.write simPinRS false, Ev.modeSet simPinDB7 PinDir.input,
      Ev.gettime (nsToTimespec s.time)],
    rfl, ?_, by decide, by decide, by decide, by decide, ?_, ?_, ?_, ?_, ?_⟩
  · rw [f2, htr, e7]
    simp [List.append_assoc]
  · rw [List.count_append, p1]
    rw [show ([Ev.delayNs 300, Ev.write simPinE true, Ev.delayNs 50, Ev.write simPinRW true,
      Ev.write simPinRS false, Ev.modeSet simPinDB7 PinDir.input,
      Ev.gettime (nsToTimespec s.time)]).count (Ev.write simPinE true) = 1 from by
        simp [List.count_cons, simPinE, simPinRW, simPinRS]]
  · rw [List.count_append, p2]
    rw [show ([Ev.delayNs 300, Ev.write simPinE true, Ev.delayNs 50, Ev.write simPinRW true,
      Ev.write simPinRS false, Ev.modeSet simPinDB7 PinDir.input,
      Ev.gettime (nsToTimespec s.time)]).count (Ev.write simPinE false) = 0 from by
        simp [List.count_cons, simPinE, simPinRW, simPinRS]]
    omega
  · rw [List.count_append, p3]
    rw [show ([Ev.delayNs 300, Ev.write simPinE true, Ev.delayNs 50, Ev.write simPinRW true,
      Ev.write simPinRS false, Ev.modeSet simPinDB7 PinDir.input,
      Ev.gettime (nsToTimespec s.time)]).count (Ev.readEv simPinDB7 true) = 0 from by
        simp [List.count_cons, simPinDB7]]
    omega
  · rw [List.count_append, p4]
    rw [show ([Ev.delayNs 300, Ev.write simPinE true, Ev.delayNs 50, Ev.write simPinRW true,
      Ev.write simPinRS false, Ev.modeSet simPinDB7 PinDir.input,
      Ev.gettime (nsToTimespec s.time)]).count (Ev.readEv simPinDB7 false) = 0 from by
        simp [List.count_cons, simPinDB7]]
  · rw [f1, q5]


/-- C8 witness: the busy-wait theorem applied with two busy polls
pending. -/
theorem C8_witness :
    ((2 : Nat) < 8 ∧ ({ simInit with busyReads := 2 } : Sim).busyReads = 2 ∧
      ({ simInit with busyReads := 2 } : Sim).wphase = false ∧
      (0 : Int) ≤ ({ simInit with busyReads := 2 } : Sim).time) ∧
    (∃ s' post pre,
      waitWhileBusy_4 nd4R 8 { simInit with busyReads := 2 } = some s' ∧
      s'.trace = post ++ Ev.readEv simPinDB7 false :: pre ++
        ({ simInit with busyReads := 2 } : Sim).trace ∧
      post.count (Ev.write simPinE true) = 1 ∧
      post.count (Ev.write simPinE false) = 2 ∧
      post.count (Ev.readEv simPinDB7 true) = 0 ∧
      post.count (Ev.readEv simPinDB7 false) = 0 ∧
      pre.count (Ev.write simPinE true) = 2 * 2 + 1 ∧
      pre.count (Ev.write simPinE false) = 2 * 2 ∧
      pre.count (Ev.readEv simPinDB7 true) = 2 ∧
      pre.count (Ev.readEv simPinDB7 false) = 0 ∧
      s'.wphase = false) :=
  ⟨⟨by decide, rfl, rfl, by decide⟩,
    C8_busy_wait_4bit_one_extra_cycle 2 8 { simInit with busyReads := 2 }
      (by decide) rfl rfl (by decide)⟩

end HD44780
